import Mathlib

set_option linter.unusedVariables false

/-!
Verification development for the Monkey interpreter repository
(a Rust tree-walking interpreter: lexer, Pratt parser, evaluator).

The definitions below are a shallow embedding of the Rust sources:

* `src/src/object.rs`  — runtime objects, hash keys, environments, builtins;
* `src/src/ast.rs`     — AST statements and expressions (node tokens, which are
  used only for diagnostics and string rendering, are not represented);
* `src/src/eval.rs`    — the evaluator (`eval`, `eval_statements`,
  `eval_block_statements`, `eval_expression`, …);
* `src/wasm/src/lexer.rs` — the byte-level lexer of the wasm variant
  (the only lexer in the repository with string-literal support);
* `src/src/parser.rs`  — the Pratt parser.

Rust `panic!` (and out-of-bounds indexing and integer division faults) is
modelled by `Except.error (RtError.panic msg)`; possible non-termination is
modelled with an explicit fuel parameter, `Except.error RtError.outOfFuel`
standing for an execution that has not finished within the given fuel.  All
recursion is structural on the fuel argument, so every definition is
executable and concrete runs reduce by `rfl`.

Machine integers: Monkey integers are Rust `i64`.  They are modelled as
mathematical `Int`; the two arithmetic faults Rust raises in every build
profile — division by zero and `i64::MIN / -1` — are modelled explicitly in
`evalInfixExpression`.  Wrap-around of `+ - *` in release builds is not
modelled; no property below depends on it.
-/

namespace Monkey

/-! Object model, mirroring `src/src/object.rs`. -/

/-- The `ObjectType` enum of `object.rs`. -/
inductive ObjectType where
  | INTEGER
  | BOOLEAN
  | NULL
  | RETURN
  | ERROR
  | FUNCTION
  | STRING
  | BUILTINFUNC
  | ARRAY
  | HASH
  deriving DecidableEq, Repr

/-- A hash key, `object.rs`: `HashKey { r#type: ObjectType, value: u64 }`. -/
structure HashKey where
  type : ObjectType
  value : Nat
  deriving DecidableEq, Repr

/-- The names of the six entries of the global `BUILTINS` table. -/
inductive BuiltinName where
  | len
  | first
  | last
  | rest
  | push
  | puts
  deriving DecidableEq, Repr

mutual

/-- Statements of `src/src/ast.rs` (`Statement` enum).  The `token` fields of
the Rust nodes carry no evaluation behaviour and are dropped; a let
statement's `name: Identifier` is represented by the identifier's string. -/
inductive Statement where
  | LETSTATEMENT (name : String) (value : EXPRESSION)
  | RETURNSTATEMENT (returnValue : EXPRESSION)
  | EXPRESSIONSTATEMENT (expression : EXPRESSION)

/-- Expressions of `src/src/ast.rs` (`EXPRESSION` enum), including the
`HashLiteral` variant consumed by `eval.rs` (declared in the crate's full
`ast.rs`; its pairs are an ordered list of key/value expression pairs, as
built by the wasm parser).  A `BlockStatement` is its list of statements.
The constructors `PREFIXEXP`/`INFIXEXP` correspond to the source variants
for prefix and infix operator expressions. -/
inductive EXPRESSION where
  | IDENTIFIER (value : String)
  | INTEGER (value : Int)
  | PREFIXEXP (operator : String) (right : EXPRESSION)
  | INFIXEXP (operator : String) (left : EXPRESSION) (right : EXPRESSION)
  | BOOLEAN (value : Bool)
  | IF (condition : EXPRESSION) (consequence : List Statement)
      (alternative : Option (List Statement))
  | FN (parameters : List String) (body : List Statement)
  | CALL (function : EXPRESSION) (args : List EXPRESSION)
  | StringLit (value : String)
  | ArrayLit (items : List EXPRESSION)
  | IndexExp (left : EXPRESSION) (index : EXPRESSION)
  | HashLit (pairs : List (EXPRESSION × EXPRESSION))

end

/-- Runtime objects, the `Object` enum of `object.rs`.  A `Function`'s
captured environment (`Rc<RefCell<Environment>>` in Rust) is an index into
the environment store (see `Store` below), which models shared mutable
environments.  The misspelled constructor `HashLitearl` is the source's own
name; its `HashMap<HashKey, HashPair>` is modelled as an association list of
`(HashKey, key object, value object)` in insertion order. -/
inductive Object where
  | INTEGER (value : Int)
  | BOOLEAN (value : Bool)
  | NULL
  | RETURN (value : Object)
  | ERROR (msg : String)
  | FN (params : List String) (body : List Statement) (env : Nat)
  | STRING (value : String)
  | BUILTINFUNC (name : BuiltinName)
  | ARRAY (elements : List Object)
  | HashLitearl (pairs : List (HashKey × Object × Object))

/-- Runtime faults: `panic` models a Rust `panic!` / `abort` with its message,
`outOfFuel` marks an execution that did not finish within the step budget. -/
inductive RtError where
  | panic (msg : String)
  | outOfFuel
  deriving DecidableEq, Repr

/-- Result type of the embedded evaluator and parser. -/
abbrev Res (α : Type) := Except RtError α

/-! Environments, mirroring `Environment` in `src/src/object.rs`.  Rust shares
environments through `Rc<RefCell<_>>`; the embedding replaces the pointers by
indices into a global `Store` (an arena), so several closures holding the same
index share one mutable environment, exactly as the `Rc` clones do. -/

/-- One environment: a local `store` mapping names to objects (a `HashMap` in
Rust, modelled as an association list) and an optional `outer` parent
reference. -/
structure Environment where
  store : List (String × Object)
  outer : Option Nat

/-- The arena of all allocated environments; an environment reference is an
index into this list. -/
abbrev Store := List Environment

/-- Insertion into an association list with the replace-or-append semantics of
`HashMap::insert`. -/
def storeInsert : List (String × Object) → String → Object → List (String × Object)
  | [], name, obj => [(name, obj)]
  | (k, v) :: rest, name, obj =>
    if k = name then (k, obj) :: rest else (k, v) :: storeInsert rest name obj

/-- Lookup in an association list, the `HashMap::get` of the local store. -/
def storeLookup : List (String × Object) → String → Option Object
  | [], _ => none
  | (k, v) :: rest, name => if k = name then some v else storeLookup rest name

/-- The recursion of `Environment::get` through the `outer` chain, with a fuel
bound on the chain length.  In Rust the chain is finite by construction
(`enclosed_environment` only ever points to an already existing environment),
which in the arena model is the invariant `WFStore` below; under it the
recursion visits strictly decreasing indices, so fuel `id + 1` suffices. -/
def envGetAux : Nat → Store → Nat → String → Option Object
  | 0, _, _, _ => none
  | fuel + 1, st, id, name =>
    match st.get? id with
    | none => none
    | some e =>
      match storeLookup e.store name with
      | some obj => some obj
      | none =>
        match e.outer with
        | some outerId => envGetAux fuel st outerId name
        | none => none

/-- `Environment::get`: look up locally, else recursively in the parent. -/
def envGet (st : Store) (id : Nat) (name : String) : Option Object :=
  envGetAux (id + 1) st id name

/-- `Environment::set`: always writes into the local store of environment
`id`.  (In Rust a dangling id cannot exist; the model leaves the store
unchanged in that vacuous case.) -/
def envSet (st : Store) (id : Nat) (name : String) (obj : Object) : Store :=
  match st.get? id with
  | some e => st.set id { e with store := storeInsert e.store name obj }
  | none => st

/-- `enclosed_environment`: allocate a fresh empty environment whose `outer`
is the given one; returns its index and the grown store. -/
def enclosedEnvironment (outerId : Nat) (st : Store) : Nat × Store :=
  (st.length, st ++ [{ store := [], outer := some outerId }])

/-- Well-formedness of a store: every parent reference points to an
environment allocated strictly earlier.  `enclosedEnvironment` extends the
arena only this way, and `envSet` never touches `outer` fields, so every
store reachable from `evalProgram` satisfies it. -/
def WFStore (st : Store) : Prop :=
  ∀ i e p, st.get? i = some e → e.outer = some p → p < i

/-! Derived `Debug` renderings.  Several error and panic messages of
`eval.rs` interpolate values with `{:?}`, i.e. with rustc's derived `Debug`
formatting; the unit tests of `eval.rs` pin the exact text (e.g.
`type mismatch INTEGER(Integer { value: 5 }) + BOOLEAN(Boolean { value: true })`).
The derived output is an enum tag followed by the payload in braces; the
renderings below reproduce it exactly for the scalar payloads the messages
exercise.  Three payloads are elided by constant placeholders: a function's
(the derived output recurses through the captured environment and need not
terminate on cyclic environments), a builtin's (Rust prints a function
pointer address), and a hash's entries beyond the empty hash (Rust's
`HashMap` iteration order is unspecified).  No property proved below depends
on the elided payload text, only on the leading tag. -/

/-- The enum tag rustc's derived `Debug` prints for each `Object` variant. -/
def objectKindTag : Object → String
  | .INTEGER _ => "INTEGER"
  | .BOOLEAN _ => "BOOLEAN"
  | .NULL => "NULL"
  | .RETURN _ => "RETURN"
  | .ERROR _ => "ERROR"
  | .FN _ _ _ => "FN"
  | .STRING _ => "STRING"
  | .BUILTINFUNC _ => "BUILTINFUNC"
  | .ARRAY _ => "ARRAY"
  | .HashLitearl _ => "HashLitearl"

/-- The `ObjectType` of each object, `Object::r#type` in `object.rs`. -/
def objectTypeOf : Object → ObjectType
  | .INTEGER _ => .INTEGER
  | .BOOLEAN _ => .BOOLEAN
  | .NULL => .NULL
  | .RETURN _ => .RETURN
  | .ERROR _ => .ERROR
  | .FN _ _ _ => .FUNCTION
  | .STRING _ => .STRING
  | .BUILTINFUNC _ => .BUILTINFUNC
  | .ARRAY _ => .ARRAY
  | .HashLitearl _ => .HASH

/-- Derived `Debug` text of the payload struct `Integer { value: v }`. -/
def integerStructDebug (v : Int) : String :=
  "Integer \x7b value: " ++ toString v ++ " \x7d"

/-- Derived `Debug` text of the payload struct `Boolean { value: b }`. -/
def booleanStructDebug (b : Bool) : String :=
  "Boolean \x7b value: " ++ toString b ++ " \x7d"

/-- Derived `Debug` text of the payload struct `StringLiteral { value: s }`
(escaping of special characters inside `s` is not modelled). -/
def stringStructDebug (s : String) : String :=
  "StringLiteral \x7b value: \"" ++ s ++ "\" \x7d"

mutual

/-- Derived `Debug` payload of one object (the part inside the variant's
parentheses).  A nested object renders as its tag followed by its own
parenthesised payload — the composition named `objectDebug` below, written
out here so the recursion is structural. -/
def objectPayloadDebug : Object → String
  | .INTEGER v => integerStructDebug v
  | .BOOLEAN b => booleanStructDebug b
  | .NULL => "Null"
  | .RETURN v =>
      "Return \x7b value: " ++ (objectKindTag v ++ "(" ++ objectPayloadDebug v ++ ")") ++ " \x7d"
  | .ERROR m => "Error \x7b msg: \"" ++ m ++ "\" \x7d"
  | .FN _ _ _ => "Function \x7b .. \x7d"
  | .STRING s => stringStructDebug s
  | .BUILTINFUNC _ => "BuiltInFunc \x7b .. \x7d"
  | .ARRAY elements =>
      "Array \x7b elements: [" ++ objectListDebug elements ++ "] \x7d"
  | .HashLitearl pairs =>
      "HashObject \x7b pairs: \x7b" ++ hashPairsDebug pairs ++ "\x7d \x7d"
termination_by structural o => o

/-- Derived `Debug` of a `Vec<Object>` body, elements joined by `, `. -/
def objectListDebug : List Object → String
  | [] => ""
  | [o] => objectKindTag o ++ "(" ++ objectPayloadDebug o ++ ")"
  | o :: rest =>
      (objectKindTag o ++ "(" ++ objectPayloadDebug o ++ ")") ++ ", " ++ objectListDebug rest
termination_by structural l => l

/-- Derived `Debug` of the entries of a hash's pair map (entry text elided,
see the section comment). -/
def hashPairsDebug : List (HashKey × Object × Object) → String
  | [] => ""
  | _ :: _ => ".."

end

/-- Derived `Debug` of an `Object`: the variant tag followed by the
parenthesised payload. -/
def objectDebug (o : Object) : String :=
  objectKindTag o ++ "(" ++ objectPayloadDebug o ++ ")"

/-! Hash keys (`Hashable` impls in `object.rs`). -/

/-- Two to the sixty-fourth, the modulus of `u64` casts. -/
def u64Mod : Nat := 2 ^ 64

/-- The smallest `i64`, relevant to the division-overflow fault. -/
def i64Min : Int := -(2 ^ 63)

/-- `Integer::hash_key`: `HashKey { type: INTEGER, value: self.value as u64 }`;
the `as u64` cast is the two's-complement reinterpretation, i.e. the value
modulo `2^64`. -/
def integerHashKey (v : Int) : HashKey :=
  { type := .INTEGER, value := (v % (u64Mod : Int)).toNat }

/-- `Boolean::hash_key`: digest 1 for `true`, 0 for `false`. -/
def booleanHashKey (b : Bool) : HashKey :=
  { type := .BOOLEAN, value := if b then 1 else 0 }

/-- Digest of `StringLiteral::hash_key`.  Rust uses the process-seeded 64-bit
`DefaultHasher` (SipHash), whose concrete values are unspecified by the
platform; the model fixes one deterministic digest of the byte content.  No
property below depends on particular string digests. -/
def stringHashDigest (s : String) : Nat :=
  s.foldl (fun h c => (h * 31 + c.toNat) % u64Mod) 0

/-- `StringLiteral::hash_key`. -/
def stringHashKey (s : String) : HashKey :=
  { type := .STRING, value := stringHashDigest s }

/-- The hash key of a hashable object, `none` for non-hashable kinds.  This
packages the three-way match of `eval_hash_literal` in `eval.rs` (only
`STRING`, `INTEGER` and `BOOLEAN` objects have a `hash_key`). -/
def hashKeyOf : Object → Option HashKey
  | .STRING s => some (stringHashKey s)
  | .INTEGER v => some (integerHashKey v)
  | .BOOLEAN b => some (booleanHashKey b)
  | _ => none

/-- `HashMap::insert` on the modelled pair list: replace the entry with an
equal key, else append. -/
def hashInsert : List (HashKey × Object × Object) → HashKey → Object → Object →
    List (HashKey × Object × Object)
  | [], hk, k, v => [(hk, k, v)]
  | (hk', k', v') :: rest, hk, k, v =>
    if hk' = hk then (hk', k, v) :: rest else (hk', k', v') :: hashInsert rest hk k v

/-! Builtin functions (`monkey_len` and friends in `object.rs`).  `puts`
writes to standard output in Rust; the model returns its `Null` result and
does not represent the output stream (no claim concerns it). -/

/-- The `BUILTINS` table lookup. -/
def lookupBuiltin : String → Option BuiltinName
  | "len" => some .len
  | "first" => some .first
  | "last" => some .last
  | "rest" => some .rest
  | "push" => some .push
  | "puts" => some .puts
  | _ => none

/-- Arity error message shared by the builtins. -/
def wrongArgsMsg (got want : Nat) : String :=
  "wrong number of arguments. got=" ++ toString got ++ ", want=" ++ toString want

/-- `monkey_len`.  `String::len` is the UTF-8 byte length. -/
def monkeyLen : List Object → Res Object
  | [a] =>
    match a with
    | .STRING s => .ok (.INTEGER (s.utf8ByteSize : Int))
    | .INTEGER _ => .ok (.ERROR "argument to `len` not supported, got INTEGER")
    | .ARRAY arr => .ok (.INTEGER (arr.length : Int))
    | other =>
        .error (.panic ("expected `monkey_len` args[0] to be string. Got: " ++ objectDebug other))
  | args => .ok (.ERROR (wrongArgsMsg args.length 1))

/-- `monkey_first`. -/
def monkeyFirst : List Object → Res Object
  | [a] =>
    match a with
    | .ARRAY arr =>
      match arr with
      | x :: _ => .ok x
      | [] => .ok .NULL
    | other => .error (.panic ("expected `first` args[0] to be arr. Got: " ++ objectDebug other))
  | args => .ok (.ERROR (wrongArgsMsg args.length 1))

/-- `monkey_last`. -/
def monkeyLast : List Object → Res Object
  | [a] =>
    match a with
    | .ARRAY arr =>
      match arr.getLast? with
      | some x => .ok x
      | none => .ok .NULL
    | other => .error (.panic ("expected `first` args[0] to be arr. Got: " ++ objectDebug other))
  | args => .ok (.ERROR (wrongArgsMsg args.length 1))

/-- `monkey_rest`: a fresh array of all but the first element. -/
def monkeyRest : List Object → Res Object
  | [a] =>
    match a with
    | .ARRAY arr =>
      match arr with
      | _ :: tail => .ok (.ARRAY tail)
      | [] => .ok .NULL
    | other => .error (.panic ("expected `first` args[0] to be arr. Got: " ++ objectDebug other))
  | args => .ok (.ERROR (wrongArgsMsg args.length 1))

/-- `monkey_push`: a fresh array with the second argument appended. -/
def monkeyPush : List Object → Res Object
  | [a, b] =>
    match a with
    | .ARRAY arr => .ok (.ARRAY (arr ++ [b]))
    | other => .error (.panic ("expected `first` args[0] to be arr. Got: " ++ objectDebug other))
  | args => .ok (.ERROR (wrongArgsMsg args.length 2))

/-- `monkey_puts` (output not modelled). -/
def monkeyPuts (args : List Object) : Res Object :=
  .ok .NULL

/-- Dispatch through the `BUILTINS` function-pointer table. -/
def applyBuiltin : BuiltinName → List Object → Res Object
  | .len, args => monkeyLen args
  | .first, args => monkeyFirst args
  | .last, args => monkeyLast args
  | .rest, args => monkeyRest args
  | .push, args => monkeyPush args
  | .puts, args => monkeyPuts args

/-! Pure evaluator helpers from `eval.rs`. -/

/-- `is_error`. -/
def isError : Object → Bool
  | .ERROR _ => true
  | _ => false

/-- `is_truthy`: `null` and `false` are falsy, every other value truthy. -/
def isTruthy : Object → Bool
  | .NULL => false
  | .BOOLEAN b => b
  | _ => true

/-- `eval_bang_operator_expression`. -/
def evalBangOperatorExpression : Object → Object
  | .BOOLEAN b => .BOOLEAN (!b)
  | .NULL => .BOOLEAN true
  | _ => .BOOLEAN false

/-- `eval_minus_operator_expression`. -/
def evalMinusOperatorExpression (object : Object) : Object :=
  match object with
  | .INTEGER v => .INTEGER (-v)
  | _ => .ERROR ("unknown operator -" ++ objectDebug object)

/-- `eval_prefix_expression`. -/
def evalPrefixExpression (operator : String) (right : Object) : Object :=
  match operator with
  | "!" => evalBangOperatorExpression right
  | "-" => evalMinusOperatorExpression right
  | _ => .ERROR ("unknown operator: " ++ operator ++ " " ++ objectDebug right)

/-- `eval_infix_expression`.  Only `/` can fault: Rust `i64` division panics
on a zero divisor and on `i64::MIN / -1`; `Int.tdiv` is Rust's
truncation-toward-zero division.  The error message interpolations follow
the source exactly: the same-kind arms print the payload structs, the
mismatch arm prints the full objects. -/
def evalInfixExpression (operator : String) (left right : Object) : Res Object :=
  match left, right with
  | .INTEGER v1, .INTEGER v2 =>
    match operator with
    | "+" => .ok (.INTEGER (v1 + v2))
    | "-" => .ok (.INTEGER (v1 - v2))
    | "*" => .ok (.INTEGER (v1 * v2))
    | "/" =>
      if v2 = 0 then .error (.panic "attempt to divide by zero")
      else if v1 = i64Min ∧ v2 = -1 then .error (.panic "attempt to divide with overflow")
      else .ok (.INTEGER (Int.tdiv v1 v2))
    | "<" => .ok (.BOOLEAN (decide (v1 < v2)))
    | ">" => .ok (.BOOLEAN (decide (v2 < v1)))
    | "!=" => .ok (.BOOLEAN (decide (v1 ≠ v2)))
    | "==" => .ok (.BOOLEAN (decide (v1 = v2)))
    | other =>
      .ok (.ERROR ("unknown operator " ++ integerStructDebug v1 ++ " " ++ other ++ " " ++
        integerStructDebug v2))
  | .BOOLEAN b1, .BOOLEAN b2 =>
    match operator with
    | "!=" => .ok (.BOOLEAN (decide (b1 ≠ b2)))
    | "==" => .ok (.BOOLEAN (decide (b1 = b2)))
    | other =>
      .ok (.ERROR ("unknown operator " ++ booleanStructDebug b1 ++ " " ++ other ++ " " ++
        booleanStructDebug b2))
  | .STRING s1, .STRING s2 =>
    match operator with
    | "+" => .ok (.STRING (s1 ++ s2))
    | other =>
      .ok (.ERROR ("unknown operator " ++ stringStructDebug s1 ++ " " ++ other ++ " " ++
        stringStructDebug s2))
  | l, r =>
    .ok (.ERROR ("type mismatch " ++ objectDebug l ++ " " ++ operator ++ " " ++ objectDebug r))

/-- `eval_index_expression`: only an array indexed by an integer is
supported; a negative index (the failing `usize::try_from`) or one at or
beyond the length yields `Null`; every other container/index combination
panics. -/
def evalIndexExpression (left index : Object) : Res Object :=
  match left, index with
  | .ARRAY elements, .INTEGER value =>
    if value < 0 then .ok .NULL
    else if h : value.toNat ≥ elements.length then .ok .NULL
    else .ok (elements.get ⟨value.toNat, by omega⟩)
  | other, _ => .error (.panic ("Index operator not supported on " ++ objectDebug other))

/-- `eval_identifier`: the environment chain first, then the `BUILTINS`
table, else the `identifier not found` error object. -/
def evalIdentifier (value : String) (env : Nat) (st : Store) : Object :=
  match envGet st env value with
  | some obj => obj
  | none =>
    match lookupBuiltin value with
    | some b => .BUILTINFUNC b
    | none => .ERROR ("identifier not found: " ++ value)

/-- The `evaluated_args.len() == 1 && is_error(&evaluated_args[0])` test of
`eval_call_expression` and the array-literal branch of `eval_expression`. -/
def singletonError : List Object → Option Object
  | [a] => if isError a then some a else none
  | _ => none

/-- `extend_fn_env`'s parameter-binding loop: bind parameter `i` to
`args[i]`; the out-of-range access is the Rust slice-index panic. -/
def extendFnEnvLoop (args : List Object) :
    List String → Nat → List (String × Object) → Res (List (String × Object))
  | [], _, tbl => .ok tbl
  | p :: rest, i, tbl =>
    match args.get? i with
    | some a => extendFnEnvLoop args rest (i + 1) (storeInsert tbl p a)
    | none =>
      .error (.panic ("index out of bounds: the len is " ++ toString args.length ++
        " but the index is " ++ toString i))

/-- `extend_fn_env`: a fresh environment enclosed in the function's captured
one, with each parameter bound to its positional argument. -/
def extendFnEnv (params : List String) (fnEnv : Nat) (args : List Object) (st : Store) :
    Res (Nat × Store) :=
  match extendFnEnvLoop args params 0 [] with
  | .error e => .error e
  | .ok tbl => .ok (st.length, st ++ [{ store := tbl, outer := some fnEnv }])

/-! The evaluator of `eval.rs`.  Every function takes a fuel argument,
consumed once per call, and all recursion is structural on it; the loop over
a statement or expression list is written as a recursive function carrying
the same accumulator the Rust `for` loop keeps in a mutable local (`result`
in `eval_statements`/`eval_block_statements`, the result vector in
`eval_expressions`, the pair map in `eval_hash_literal`). -/

mutual

/-- Loop body of `eval_statements` (the `Program` evaluation): the `result`
accumulator starts as `Null`; a `Return` short-circuits and is unwrapped, an
`Error` short-circuits unchanged; a statement that produces no value (a
successful `let`) leaves `result` as it was. -/
def evalStatementsLoop : Nat → List Statement → Nat → Store → Object → Res (Object × Store)
  | 0, _, _, _, _ => .error .outOfFuel
  | fuel + 1, [], _, st, result => .ok (result, st)
  | fuel + 1, s :: rest, env, st, result =>
    match evalStatement fuel s env st with
    | .error e => .error e
    | .ok (none, st') => evalStatementsLoop fuel rest env st' result
    | .ok (some r, st') =>
      match r with
      | .RETURN v => .ok (v, st')
      | .ERROR m => .ok (.ERROR m, st')
      | _ => evalStatementsLoop fuel rest env st' r
termination_by structural fuel _ _ _ _ => fuel

/-- Loop body of `eval_block_statements`: identical to the program loop
except that a `Return` is passed on still wrapped. -/
def evalBlockStatementsLoop : Nat → List Statement → Nat → Store → Object → Res (Object × Store)
  | 0, _, _, _, _ => .error .outOfFuel
  | fuel + 1, [], _, st, result => .ok (result, st)
  | fuel + 1, s :: rest, env, st, result =>
    match evalStatement fuel s env st with
    | .error e => .error e
    | .ok (none, st') => evalBlockStatementsLoop fuel rest env st' result
    | .ok (some r, st') =>
      match r with
      | .RETURN v => .ok (.RETURN v, st')
      | .ERROR m => .ok (.ERROR m, st')
      | _ => evalBlockStatementsLoop fuel rest env st' r
termination_by structural fuel _ _ _ _ => fuel

/-- `eval_statement`: dispatch on the statement kind; `none` models the
`None` a successful let statement returns (it contributes no value). -/
def evalStatement : Nat → Statement → Nat → Store → Res (Option Object × Store)
  | 0, _, _, _ => .error .outOfFuel
  | fuel + 1, .LETSTATEMENT name value, env, st => evalLetStatement fuel name value env st
  | fuel + 1, .RETURNSTATEMENT rv, env, st =>
    match evalReturnStatement fuel rv env st with
    | .error e => .error e
    | .ok (o, st') => .ok (some o, st')
  | fuel + 1, .EXPRESSIONSTATEMENT e, env, st =>
    match evalExpression fuel e env st with
    | .error e => .error e
    | .ok (o, st') => .ok (some o, st')
termination_by structural fuel _ _ _ => fuel

/-- `eval_let_statement`: evaluate the value; surface an error, else bind
the name in the current environment and contribute no value. -/
def evalLetStatement : Nat → String → EXPRESSION → Nat → Store → Res (Option Object × Store)
  | 0, _, _, _, _ => .error .outOfFuel
  | fuel + 1, name, value, env, st =>
    match evalExpression fuel value env st with
    | .error e => .error e
    | .ok (val, st') =>
      if isError val then .ok (some val, st')
      else .ok (none, envSet st' env name val)
termination_by structural fuel _ _ _ _ => fuel

/-- `eval_return_statement`: evaluate the value; surface an error, else wrap
in `Return`. -/
def evalReturnStatement : Nat → EXPRESSION → Nat → Store → Res (Object × Store)
  | 0, _, _, _ => .error .outOfFuel
  | fuel + 1, rv, env, st =>
    match evalExpression fuel rv env st with
    | .error e => .error e
    | .ok (val, st') =>
      if isError val then .ok (val, st')
      else .ok (.RETURN val, st')
termination_by structural fuel _ _ _ => fuel

/-- `eval_expression`: the main dispatch of `eval.rs`. -/
def evalExpression : Nat → EXPRESSION → Nat → Store → Res (Object × Store)
  | 0, _, _, _ => .error .outOfFuel
  | fuel + 1, exp, env, st =>
    match exp with
    | .INTEGER v => .ok (.INTEGER v, st)
    | .BOOLEAN b => .ok (.BOOLEAN b, st)
    | .IF condition consequence alternative =>
        evalIfExpression fuel condition consequence alternative env st
    | .IDENTIFIER name => .ok (evalIdentifier name env st, st)
    | .FN parameters body => .ok (.FN parameters body env, st)
    | .CALL function args => evalCallExpression fuel function args env st
    | .PREFIXEXP operator right =>
      match evalExpression fuel right env st with
      | .error e => .error e
      | .ok (r, st') =>
        if isError r then .ok (r, st')
        else .ok (evalPrefixExpression operator r, st')
    | .INFIXEXP operator left right =>
      match evalExpression fuel left env st with
      | .error e => .error e
      | .ok (l, st') =>
        if isError l then .ok (l, st')
        else
          match evalExpression fuel right env st' with
          | .error e => .error e
          | .ok (r, st'') =>
            if isError r then .ok (r, st'')
            else
              match evalInfixExpression operator l r with
              | .error e => .error e
              | .ok o => .ok (o, st'')
    | .StringLit s => .ok (.STRING s, st)
    | .ArrayLit items =>
      match evalExpressionsLoop fuel items env st [] with
      | .error e => .error e
      | .ok (elements, st') =>
        match singletonError elements with
        | some err => .ok (err, st')
        | none => .ok (.ARRAY elements, st')
    | .IndexExp left index =>
      match evalExpression fuel left env st with
      | .error e => .error e
      | .ok (l, st') =>
        if isError l then .ok (l, st')
        else
          match evalExpression fuel index env st' with
          | .error e => .error e
          | .ok (ix, st'') =>
            if isError ix then .ok (ix, st'')
            else
              match evalIndexExpression l ix with
              | .error e => .error e
              | .ok o => .ok (o, st'')
    | .HashLit pairs => evalHashLiteralLoop fuel pairs env st []
termination_by structural fuel _ _ _ => fuel

/-- Loop body of `eval_hash_literal`: evaluate a key, surface errors, reject
non-hashable keys, evaluate the value, surface errors, insert the pair. -/
def evalHashLiteralLoop : Nat → List (EXPRESSION × EXPRESSION) → Nat → Store →
    List (HashKey × Object × Object) → Res (Object × Store)
  | 0, _, _, _, _ => .error .outOfFuel
  | fuel + 1, [], _, st, pairs => .ok (.HashLitearl pairs, st)
  | fuel + 1, (k, v) :: rest, env, st, pairs =>
    match evalExpression fuel k env st with
    | .error e => .error e
    | .ok (key, st') =>
      if isError key then .ok (key, st')
      else
        match hashKeyOf key with
        | none => .ok (.ERROR ("unusable as hash key: " ++ objectDebug key), st')
        | some hk =>
          match evalExpression fuel v env st' with
          | .error e => .error e
          | .ok (value, st'') =>
            if isError value then .ok (value, st'')
            else evalHashLiteralLoop fuel rest env st'' (hashInsert pairs hk key value)
termination_by structural fuel _ _ _ _ => fuel

/-- `eval_if_expression`: surface a condition error; evaluate the
consequence block if truthy, else the alternative block if present, else
`Null`. -/
def evalIfExpression : Nat → EXPRESSION → List Statement → Option (List Statement) →
    Nat → Store → Res (Object × Store)
  | 0, _, _, _, _, _ => .error .outOfFuel
  | fuel + 1, condition, consequence, alternative, env, st =>
    match evalExpression fuel condition env st with
    | .error e => .error e
    | .ok (c, st') =>
      if isError c then .ok (c, st')
      else if isTruthy c then evalBlockStatementsLoop fuel consequence env st' .NULL
      else
        match alternative with
        | some alt => evalBlockStatementsLoop fuel alt env st' .NULL
        | none => .ok (.NULL, st')
termination_by structural fuel _ _ _ _ _ => fuel

/-- `eval_call_expression`: evaluate the callee, surface errors; evaluate
the arguments left to right (a singleton error vector short-circuits); a
user function runs its body in a fresh enclosed environment and the outer
`Return` is unwrapped; a builtin is applied directly; any other callee
panics. -/
def evalCallExpression : Nat → EXPRESSION → List EXPRESSION → Nat → Store → Res (Object × Store)
  | 0, _, _, _, _ => .error .outOfFuel
  | fuel + 1, fexp, argExps, env, st =>
    match evalExpression fuel fexp env st with
    | .error e => .error e
    | .ok (function, st1) =>
      if isError function then .ok (function, st1)
      else
        match evalExpressionsLoop fuel argExps env st1 [] with
        | .error e => .error e
        | .ok (evaluatedArgs, st2) =>
          match singletonError evaluatedArgs with
          | some err => .ok (err, st2)
          | none =>
            match function with
            | .FN params body fenv =>
              match extendFnEnv params fenv evaluatedArgs st2 with
              | .error e => .error e
              | .ok (newEnv, st3) =>
                match evalBlockStatementsLoop fuel body newEnv st3 .NULL with
                | .error e => .error e
                | .ok (evaluatedFunction, st4) =>
                  match evaluatedFunction with
                  | .RETURN v => .ok (v, st4)
                  | _ => .ok (evaluatedFunction, st4)
            | .BUILTINFUNC name =>
              match applyBuiltin name evaluatedArgs with
              | .error e => .error e
              | .ok o => .ok (o, st2)
            | other => .error (.panic ("expected fn object. Got " ++ objectDebug other))
termination_by structural fuel _ _ _ _ => fuel

/-- Loop body of `eval_expressions`: evaluate left to right; an error object
discards the results so far and yields the singleton vector containing it. -/
def evalExpressionsLoop : Nat → List EXPRESSION → Nat → Store → List Object →
    Res (List Object × Store)
  | 0, _, _, _, _ => .error .outOfFuel
  | fuel + 1, [], _, st, result => .ok (result, st)
  | fuel + 1, e :: rest, env, st, result =>
    match evalExpression fuel e env st with
    | .error x => .error x
    | .ok (evaluated, st') =>
      if isError evaluated then .ok ([evaluated], st')
      else evalExpressionsLoop fuel rest env st' (result ++ [evaluated])
termination_by structural fuel _ _ _ _ => fuel

end

/-- `eval_statements` (program-level evaluation): run the loop with the
`Null` initial result. -/
def evalStatements (fuel : Nat) (stmts : List Statement) (env : Nat) (st : Store) :
    Res (Object × Store) :=
  evalStatementsLoop fuel stmts env st .NULL

/-- `eval_block_statements`. -/
def evalBlockStatements (fuel : Nat) (stmts : List Statement) (env : Nat) (st : Store) :
    Res (Object × Store) :=
  evalBlockStatementsLoop fuel stmts env st .NULL

/-- `eval_expressions`. -/
def evalExpressions (fuel : Nat) (exps : List EXPRESSION) (env : Nat) (st : Store) :
    Res (List Object × Store) :=
  evalExpressionsLoop fuel exps env st []

/-- `eval` in `eval.rs`: evaluate a program's statements in a fresh
top-level environment. -/
def evalProgram (fuel : Nat) (statements : List Statement) : Res (Object × Store) :=
  evalStatements fuel statements 0 [{ store := [], outer := none }]

/-- Projection dropping the final store, for stating results about the
returned object alone. -/
def resObject (r : Res (Object × Store)) : Res Object :=
  r.map Prod.fst

/-! Token kinds.  `src/src/token.rs` declares the base set; the `STRING`,
`COLON`, `LBRACKET` and `RBRACKET` kinds are those of the wasm crate's
`token.rs` (not shipped under `src/`, but required by its lexer and parser,
which are). -/

/-- The `TokenType` enum. -/
inductive TokenType where
  | LET
  | FUNCTION
  | ILLEGAL
  | EOF
  | IDENT
  | INT
  | ASSIGN
  | PLUS
  | COMMA
  | SEMICOLON
  | LPAREN
  | RPAREN
  | LBRACE
  | RBRACE
  | MINUS
  | BANG
  | ASTERISK
  | SLASH
  | LT
  | GT
  | TRUE
  | FALSE
  | IF
  | ELSE
  | RETURN
  | EQ
  | NOTEQ
  | STRING
  | COLON
  | LBRACKET
  | RBRACKET
  deriving DecidableEq, Repr

/-- Derived `Debug` text of a token kind (its variant name), used in parser
messages. -/
def tokenTypeDebug : TokenType → String
  | .LET => "LET"
  | .FUNCTION => "FUNCTION"
  | .ILLEGAL => "ILLEGAL"
  | .EOF => "EOF"
  | .IDENT => "IDENT"
  | .INT => "INT"
  | .ASSIGN => "ASSIGN"
  | .PLUS => "PLUS"
  | .COMMA => "COMMA"
  | .SEMICOLON => "SEMICOLON"
  | .LPAREN => "LPAREN"
  | .RPAREN => "RPAREN"
  | .LBRACE => "LBRACE"
  | .RBRACE => "RBRACE"
  | .MINUS => "MINUS"
  | .BANG => "BANG"
  | .ASTERISK => "ASTERISK"
  | .SLASH => "SLASH"
  | .LT => "LT"
  | .GT => "GT"
  | .TRUE => "TRUE"
  | .FALSE => "FALSE"
  | .IF => "IF"
  | .ELSE => "ELSE"
  | .RETURN => "RETURN"
  | .EQ => "EQ"
  | .NOTEQ => "NOTEQ"
  | .STRING => "STRING"
  | .COLON => "COLON"
  | .LBRACKET => "LBRACKET"
  | .RBRACKET => "RBRACKET"

/-! The lexer of `src/wasm/src/lexer.rs`, modelled at byte level: the input
is the byte sequence of the source string, and token literals are the byte
slices the Rust code takes of it.  `ch = 0` is the lexer's end-of-input
sentinel, exactly as in the source.  The loops of `skip_whitespace`,
`read_identifier`, `read_number` and `read_string` are fueled; `none`
means the loop did not finish within the fuel, so a result that is `none`
for every fuel is a non-terminating execution of the source. -/

/-- A lexed token: a kind and the literal byte slice. -/
structure LToken where
  type : TokenType
  literal : List Nat
  deriving DecidableEq, Repr

/-- The lexer state, the four fields of the Rust `Lexer` struct. -/
structure Lexer where
  input : List Nat
  position : Nat
  read_position : Nat
  ch : Nat
  deriving DecidableEq, Repr

/-- `read_char`: load the byte at `read_position` (0 past the end), then
advance. -/
def readChar (l : Lexer) : Lexer :=
  let c := if l.read_position ≥ l.input.length then 0 else l.input.getD l.read_position 0
  { l with ch := c, position := l.read_position, read_position := l.read_position + 1 }

/-- `Lexer::new`: zero state, then one `read_char`. -/
def lexerNew (input : List Nat) : Lexer :=
  readChar { input := input, position := 0, read_position := 0, ch := 0 }

/-- `peek_char`: the byte at `read_position` without advancing. -/
def peekChar (l : Lexer) : Nat :=
  if l.read_position ≥ l.input.length then 0 else l.input.getD l.read_position 0

/-- Rust `u8::is_ascii_alphabetic`. -/
def isAsciiAlphabetic (ch : Nat) : Bool :=
  (65 ≤ ch ∧ ch ≤ 90) ∨ (97 ≤ ch ∧ ch ≤ 122)

/-- Rust `u8::is_ascii_digit`. -/
def isAsciiDigit (ch : Nat) : Bool :=
  48 ≤ ch ∧ ch ≤ 57

/-- `skip_whitespace`: skip space (32), carriage return (13), newline (10)
and tab (9). -/
def skipWhitespace : Nat → Lexer → Option Lexer
  | 0, _ => none
  | fuel + 1, l =>
    if l.ch = 32 ∨ l.ch = 13 ∨ l.ch = 10 ∨ l.ch = 9 then skipWhitespace fuel (readChar l)
    else some l

/-- Loop of `read_identifier`: advance while on `_` or an ASCII letter. -/
def readIdentifierLoop : Nat → Lexer → Option Lexer
  | 0, _ => none
  | fuel + 1, l =>
    if l.ch = 95 ∨ isAsciiAlphabetic l.ch then readIdentifierLoop fuel (readChar l)
    else some l

/-- `read_identifier`: the byte slice from the starting position to the
first byte outside the identifier run. -/
def readIdentifier (fuel : Nat) (l : Lexer) : Option (List Nat × Lexer) :=
  let initialPosition := l.position
  match readIdentifierLoop fuel l with
  | none => none
  | some l1 => some ((l1.input.drop initialPosition).take (l1.position - initialPosition), l1)

/-- Loop of `read_number`: advance while on an ASCII digit. -/
def readNumberLoop : Nat → Lexer → Option Lexer
  | 0, _ => none
  | fuel + 1, l =>
    if isAsciiDigit l.ch then readNumberLoop fuel (readChar l)
    else some l

/-- `read_number`. -/
def readNumber (fuel : Nat) (l : Lexer) : Option (List Nat × Lexer) :=
  let initialPointer := l.position
  match readNumberLoop fuel l with
  | none => none
  | some l1 => some ((l1.input.drop initialPointer).take (l1.position - initialPointer), l1)

/-- Loop of `read_string`: advance until the byte equals `b'"'` (34) or
`b'0'` (48) — the source literally compares against the byte of the digit
zero, not the end-of-input sentinel `0`, so the loop never stops at end of
input. -/
def readStringLoop : Nat → Lexer → Option Lexer
  | 0, _ => none
  | fuel + 1, l =>
    let l1 := readChar l
    if l1.ch = 34 ∨ l1.ch = 48 then some l1
    else readStringLoop fuel l1

/-- `read_string`: the byte slice strictly between the opening quote and the
byte the loop stopped at. -/
def readString (fuel : Nat) (l : Lexer) : Option (List Nat × Lexer) :=
  let initialPositon := l.position + 1
  match readStringLoop fuel l with
  | none => none
  | some l1 => some ((l1.input.drop initialPositon).take (l1.position - initialPositon), l1)

/-- Byte sequence of a string, for keyword comparisons and the decimal
rendering of `ILLEGAL` literals. -/
def strBytes (s : String) : List Nat :=
  s.toList.map Char.toNat

/-- `Token::lookup_ident`: the keyword table, else `IDENT`. -/
def lookupIdent (literal : List Nat) : TokenType :=
  if literal = strBytes "fn" then .FUNCTION
  else if literal = strBytes "let" then .LET
  else if literal = strBytes "true" then .TRUE
  else if literal = strBytes "false" then .FALSE
  else if literal = strBytes "if" then .IF
  else if literal = strBytes "else" then .ELSE
  else if literal = strBytes "return" then .RETURN
  else .IDENT

/-- `next_token` of the wasm lexer.  Branches mirror the source `match` on
`self.ch`; the identifier and number branches set the source's `skip` flag,
every other branch performs the trailing `read_char`.  The `ILLEGAL` literal
is the decimal rendering of the byte (Rust formats the `u8` itself). -/
def nextToken (fuel : Nat) (l0 : Lexer) : Option (LToken × Lexer) :=
  match skipWhitespace fuel l0 with
  | none => none
  | some l =>
    match l.ch with
    | 59 => some ({ type := .SEMICOLON, literal := [59] }, readChar l)
    | 40 => some ({ type := .LPAREN, literal := [40] }, readChar l)
    | 41 => some ({ type := .RPAREN, literal := [41] }, readChar l)
    | 44 => some ({ type := .COMMA, literal := [44] }, readChar l)
    | 43 => some ({ type := .PLUS, literal := [43] }, readChar l)
    | 123 => some ({ type := .LBRACE, literal := [123] }, readChar l)
    | 125 => some ({ type := .RBRACE, literal := [125] }, readChar l)
    | 91 => some ({ type := .LBRACKET, literal := [91] }, readChar l)
    | 93 => some ({ type := .RBRACKET, literal := [93] }, readChar l)
    | 45 => some ({ type := .MINUS, literal := [45] }, readChar l)
    | 47 => some ({ type := .SLASH, literal := [47] }, readChar l)
    | 42 => some ({ type := .ASTERISK, literal := [42] }, readChar l)
    | 60 => some ({ type := .LT, literal := [60] }, readChar l)
    | 62 => some ({ type := .GT, literal := [62] }, readChar l)
    | 58 => some ({ type := .COLON, literal := [58] }, readChar l)
    | 0 => some ({ type := .EOF, literal := [] }, readChar l)
    | 34 =>
      match readString fuel l with
      | none => none
      | some (lit, l1) => some ({ type := .STRING, literal := lit }, readChar l1)
    | 33 =>
      if peekChar l = 61 then
        some ({ type := .NOTEQ, literal := [33, 61] }, readChar (readChar l))
      else some ({ type := .BANG, literal := [33] }, readChar l)
    | 61 =>
      if peekChar l = 61 then
        some ({ type := .EQ, literal := [61, 61] }, readChar (readChar l))
      else some ({ type := .ASSIGN, literal := [61] }, readChar l)
    | ch =>
      if ch = 95 ∨ isAsciiAlphabetic ch then
        match readIdentifier fuel l with
        | none => none
        | some (lit, l1) => some ({ type := lookupIdent lit, literal := lit }, l1)
      else if isAsciiDigit ch then
        match readNumber fuel l with
        | none => none
        | some (lit, l1) => some ({ type := .INT, literal := lit }, l1)
      else some ({ type := .ILLEGAL, literal := strBytes (toString ch) }, readChar l)

/-! The parser of `src/src/parser.rs`.  The parser pulls tokens from its
lexer one at a time; the model feeds it an arbitrary token stream `tokens`
(a lexer yields `EOF` forever once exhausted, so a finite list padded with
`EOF` represents every reachable stream).  Panics of the source
(`no prefix parse fn …`, the `expect_peek` panics inside if/fn parsing) are
`RtError.panic`; the loops are fueled, and a parse that is `outOfFuel` at
every fuel is a non-terminating run of the source. -/

/-- A parser-level token: a kind and its literal text. -/
structure Token where
  type : TokenType
  literal : String
  deriving DecidableEq, Repr

/-- The `EOF` token the parser state starts from and streams end with. -/
def eofToken : Token :=
  { type := .EOF, literal := "" }

/-- The `PrecedenceType` enum (`PREFIXPREC` is the source's prefix level). -/
inductive PrecedenceType where
  | LOWEST
  | EQUALS
  | LESSGREATER
  | SUM
  | PRODUCT
  | PREFIXPREC
  | CALL
  deriving DecidableEq, Repr

/-- Rank of a precedence, giving the derived `PartialOrd` order (declaration
order). -/
def PrecedenceType.rank : PrecedenceType → Nat
  | .LOWEST => 0
  | .EQUALS => 1
  | .LESSGREATER => 2
  | .SUM => 3
  | .PRODUCT => 4
  | .PREFIXPREC => 5
  | .CALL => 6

/-- The strict order `<` on precedences. -/
def precLt (a b : PrecedenceType) : Bool :=
  a.rank < b.rank

/-- The `PRECEDENCES` table of `src/src/parser.rs` (eight entries; call and
index tokens have no precedence in this parser). -/
def precedences : TokenType → Option PrecedenceType
  | .EQ => some .EQUALS
  | .NOTEQ => some .EQUALS
  | .LT => some .LESSGREATER
  | .GT => some .LESSGREATER
  | .PLUS => some .SUM
  | .MINUS => some .SUM
  | .SLASH => some .PRODUCT
  | .ASTERISK => some .PRODUCT
  | _ => none

/-- The parser state: the not-yet-delivered remainder of the token stream
plus the `cur_token`, `peek_token` and `errors` fields of the Rust struct. -/
structure Parser where
  tokens : List Token
  cur_token : Token
  peek_token : Token
  errors : List String
  deriving DecidableEq, Repr

/-- `Parser::next_token`: shift peek into cur and pull the next stream token
(an exhausted stream yields `EOF`, as the lexer does). -/
def pNextToken (p : Parser) : Parser :=
  { tokens := p.tokens.tail
    cur_token := p.peek_token
    peek_token := p.tokens.headD eofToken
    errors := p.errors }

/-- `Parser::new`: both token slots start as `EOF` and are loaded by two
`next_token` calls. -/
def parserNew (tokens : List Token) : Parser :=
  pNextToken (pNextToken
    { tokens := tokens, cur_token := eofToken, peek_token := eofToken, errors := [] })

/-- `cur_token_is`. -/
def curTokenIs (p : Parser) (t : TokenType) : Bool :=
  p.cur_token.type = t

/-- `peek_token_is`. -/
def peekTokenIs (p : Parser) (t : TokenType) : Bool :=
  p.peek_token.type = t

/-- `peek_errors`: record `Expected next token to be <kind>, got <kind>`. -/
def peekErrors (p : Parser) (expectedTokenType : TokenType) : Parser :=
  { p with errors := p.errors ++
      ["Expected next token to be " ++ tokenTypeDebug expectedTokenType ++
        ", got " ++ tokenTypeDebug p.peek_token.type] }

/-- `expect_peek`: advance on a match, else record the error and stay. -/
def expectPeek (p : Parser) (t : TokenType) : Bool × Parser :=
  if peekTokenIs p t then (true, pNextToken p)
  else (false, peekErrors p t)

/-- `peek_precedence`: table entry of the peek token, else `LOWEST`. -/
def peekPrecedence (p : Parser) : PrecedenceType :=
  (precedences p.peek_token.type).getD .LOWEST

/-- `cur_precedence`. -/
def curPrecedence (p : Parser) : PrecedenceType :=
  (precedences p.cur_token.type).getD .LOWEST

/-- `pares_identifier` (the source's own spelling). -/
def paresIdentifier (p : Parser) : EXPRESSION :=
  .IDENTIFIER p.cur_token.literal

/-- `parse_integer`: parse the literal, recording
`Could not parse <lit> as integer` and substituting 0 on failure.  (Rust's
`parse::<i64>` also fails on out-of-range literals; the model's `toInt?`
does not bound the value — no property below involves such literals.) -/
def parseInteger (p : Parser) : EXPRESSION × Parser :=
  match p.cur_token.literal.toInt? with
  | some v => (.INTEGER v, p)
  | none =>
    (.INTEGER 0,
      { p with errors := p.errors ++
          ["Could not parse " ++ p.cur_token.literal ++ " as integer"] })

/-- `parse_boolean`. -/
def parseBoolean (p : Parser) : EXPRESSION :=
  .BOOLEAN (curTokenIs p .TRUE)

mutual

/-- Loop of `parse_program`: parse statements until the current token is
`EOF`, advancing once after each attempt. -/
def parseProgramLoop (fuel : Nat) (p : Parser) (acc : List Statement) :
    Res (List Statement × Parser) :=
  match fuel with
  | 0 => .error .outOfFuel
  | fuel + 1 =>
    if curTokenIs p .EOF then .ok (acc, p)
    else
      match parseStatement fuel p with
      | .error e => .error e
      | .ok (some s, p1) => parseProgramLoop fuel (pNextToken p1) (acc ++ [s])
      | .ok (none, p1) => parseProgramLoop fuel (pNextToken p1) acc
termination_by structural fuel

/-- `parse_statement`: dispatch on the current token kind; `none` models a
statement parse that returned `None`. -/
def parseStatement (fuel : Nat) (p : Parser) : Res (Option Statement × Parser) :=
  match fuel with
  | 0 => .error .outOfFuel
  | fuel + 1 =>
    match p.cur_token.type with
    | .LET => parseLetStatement fuel p
    | .RETURN => parseReturnStatement fuel p
    | _ =>
      match parseExpStatement fuel p with
      | .error e => .error e
      | .ok (s, p1) => .ok (some s, p1)
termination_by structural fuel

/-- The skip-to-semicolon loop shared by `parse_let_statement` and
`parse_return_statement`: `while !cur_token_is(SEMICOLON) { next_token() }`.
It never terminates when the remaining stream holds no semicolon. -/
def skipToSemicolonLoop (fuel : Nat) (p : Parser) : Res Parser :=
  match fuel with
  | 0 => .error .outOfFuel
  | fuel + 1 =>
    if curTokenIs p .SEMICOLON then .ok p
    else skipToSemicolonLoop fuel (pNextToken p)
termination_by structural fuel

/-- `parse_let_statement`: expect an identifier then `=`, then skip to the
next semicolon; the statement's value is the placeholder empty identifier
the source constructs and never replaces. -/
def parseLetStatement (fuel : Nat) (p : Parser) : Res (Option Statement × Parser) :=
  match fuel with
  | 0 => .error .outOfFuel
  | fuel + 1 =>
    match expectPeek p .IDENT with
    | (false, p1) => .ok (none, p1)
    | (true, p1) =>
      let name := p1.cur_token.literal
      match expectPeek p1 .ASSIGN with
      | (false, p2) => .ok (none, p2)
      | (true, p2) =>
        match skipToSemicolonLoop fuel p2 with
        | .error e => .error e
        | .ok p3 => .ok (some (.LETSTATEMENT name (.IDENTIFIER "")), p3)

/-- `parse_return_statement`: advance once, then skip to the next
semicolon; the return value is the placeholder empty identifier. -/
def parseReturnStatement (fuel : Nat) (p : Parser) : Res (Option Statement × Parser) :=
  match fuel with
  | 0 => .error .outOfFuel
  | fuel + 1 =>
    match skipToSemicolonLoop fuel (pNextToken p) with
    | .error e => .error e
    | .ok p1 => .ok (some (.RETURNSTATEMENT (.IDENTIFIER "")), p1)

/-- `parse_exp_statement`: parse an expression at `LOWEST`, then optionally
consume a trailing semicolon. -/
def parseExpStatement (fuel : Nat) (p : Parser) : Res (Statement × Parser) :=
  match fuel with
  | 0 => .error .outOfFuel
  | fuel + 1 =>
    match parseExpression fuel p .LOWEST with
    | .error e => .error e
    | .ok (exp, p1) =>
      let p2 := if peekTokenIs p1 .SEMICOLON then pNextToken p1 else p1
      .ok (.EXPRESSIONSTATEMENT exp, p2)
termination_by structural fuel

/-- `parse_expression`: dispatch to the prefix parselet of the current token
(panicking when none exists, as the source does), then run the Pratt loop. -/
def parseExpression (fuel : Nat) (p : Parser) (precedence : PrecedenceType) :
    Res (EXPRESSION × Parser) :=
  match fuel with
  | 0 => .error .outOfFuel
  | fuel + 1 =>
    let prefixRes : Res (EXPRESSION × Parser) :=
      match p.cur_token.type with
      | .IDENT => .ok (paresIdentifier p, p)
      | .INT => .ok (parseInteger p)
      | .BANG => parsePrefixExpression fuel p
      | .MINUS => parsePrefixExpression fuel p
      | .TRUE => .ok (parseBoolean p, p)
      | .FALSE => .ok (parseBoolean p, p)
      | .LPAREN => parseGroupedExpression fuel p
      | .IF => parseIfExpression fuel p
      | .FUNCTION => parseFnLiteral fuel p
      | other => .error (.panic ("no prefix parse fn for " ++ tokenTypeDebug other ++ " defined"))
    match prefixRes with
    | .error e => .error e
    | .ok (left, p1) => parseExpressionLoop fuel precedence left p1
termination_by structural fuel

/-- The Pratt loop of `parse_expression`: while the peek token is not a
semicolon and binds tighter than `precedence`, consume an infix operator; on
any other peek token the source keeps `left` unchanged and iterates again. -/
def parseExpressionLoop (fuel : Nat) (precedence : PrecedenceType) (left : EXPRESSION)
    (p : Parser) : Res (EXPRESSION × Parser) :=
  match fuel with
  | 0 => .error .outOfFuel
  | fuel + 1 =>
    if ¬ peekTokenIs p .SEMICOLON ∧ precLt precedence (peekPrecedence p) then
      match p.peek_token.type with
      | .PLUS | .MINUS | .SLASH | .ASTERISK | .EQ | .NOTEQ | .LT | .GT =>
        match parseInfixExpression fuel (pNextToken p) left with
        | .error e => .error e
        | .ok (left1, p1) => parseExpressionLoop fuel precedence left1 p1
      | _ => parseExpressionLoop fuel precedence left p
    else .ok (left, p)
termination_by structural fuel

/-- `parse_grouped_expression`: advance past `(`, parse at `LOWEST`, then
advance once more (without checking for `)`, as in the source). -/
def parseGroupedExpression (fuel : Nat) (p : Parser) : Res (EXPRESSION × Parser) :=
  match fuel with
  | 0 => .error .outOfFuel
  | fuel + 1 =>
    match parseExpression fuel (pNextToken p) .LOWEST with
    | .error e => .error e
    | .ok (exp, p1) => .ok (exp, pNextToken p1)
termination_by structural fuel

/-- `parse_if_expression`: the source panics on each failed `expect_peek`. -/
def parseIfExpression (fuel : Nat) (p : Parser) : Res (EXPRESSION × Parser) :=
  match fuel with
  | 0 => .error .outOfFuel
  | fuel + 1 =>
    match expectPeek p .LPAREN with
    | (false, _) => .error (.panic "Left paran not found")
    | (true, p1) =>
      match parseExpression fuel (pNextToken p1) .LOWEST with
      | .error e => .error e
      | .ok (condition, p2) =>
        match expectPeek p2 .RPAREN with
        | (false, _) => .error (.panic "Right paran not found")
        | (true, p3) =>
          match expectPeek p3 .LBRACE with
          | (false, _) => .error (.panic "Left brace not found")
          | (true, p4) =>
            match parseBlockStatement fuel p4 with
            | .error e => .error e
            | .ok (consequence, p5) =>
              if peekTokenIs p5 .ELSE then
                match expectPeek (pNextToken p5) .LBRACE with
                | (false, _) => .error (.panic "left brace not found while parsing else part")
                | (true, p6) =>
                  match parseBlockStatement fuel p6 with
                  | .error e => .error e
                  | .ok (alternative, p7) =>
                    .ok (.IF condition consequence (some alternative), p7)
              else .ok (.IF condition consequence none, p5)
termination_by structural fuel

/-- Loop of `parse_block_statement`: collect statements until `}` or `EOF`;
a statement parse returning `None` does not advance (matching the source,
where such a state loops forever). -/
def parseBlockLoop (fuel : Nat) (p : Parser) (acc : List Statement) :
    Res (List Statement × Parser) :=
  match fuel with
  | 0 => .error .outOfFuel
  | fuel + 1 =>
    if curTokenIs p .RBRACE ∨ curTokenIs p .EOF then .ok (acc, p)
    else
      match parseStatement fuel p with
      | .error e => .error e
      | .ok (some s, p1) => parseBlockLoop fuel (pNextToken p1) (acc ++ [s])
      | .ok (none, p1) => parseBlockLoop fuel p1 acc
termination_by structural fuel

/-- `parse_block_statement`: advance past `{` and run the loop. -/
def parseBlockStatement (fuel : Nat) (p : Parser) : Res (List Statement × Parser) :=
  match fuel with
  | 0 => .error .outOfFuel
  | fuel + 1 => parseBlockLoop fuel (pNextToken p) []
termination_by structural fuel

/-- `parse_prefix_expression`: keep the operator literal, advance, parse the
operand at the prefix precedence. -/
def parsePrefixExpression (fuel : Nat) (p : Parser) : Res (EXPRESSION × Parser) :=
  match fuel with
  | 0 => .error .outOfFuel
  | fuel + 1 =>
    let operator := p.cur_token.literal
    match parseExpression fuel (pNextToken p) .PREFIXPREC with
    | .error e => .error e
    | .ok (right, p1) => .ok (.PREFIXEXP operator right, p1)
termination_by structural fuel

/-- `parse_infix_expression` (called with `cur_token` on the operator). -/
def parseInfixExpression (fuel : Nat) (p : Parser) (left : EXPRESSION) :
    Res (EXPRESSION × Parser) :=
  match fuel with
  | 0 => .error .outOfFuel
  | fuel + 1 =>
    let precedence := curPrecedence p
    let operator := p.cur_token.literal
    match parseExpression fuel (pNextToken p) precedence with
    | .error e => .error e
    | .ok (right, p1) => .ok (.INFIXEXP operator left right, p1)
termination_by structural fuel

/-- `parse_fn_literal`: the source panics on each failed `expect_peek`. -/
def parseFnLiteral (fuel : Nat) (p : Parser) : Res (EXPRESSION × Parser) :=
  match fuel with
  | 0 => .error .outOfFuel
  | fuel + 1 =>
    match expectPeek p .LPAREN with
    | (false, _) => .error (.panic "Expected LPAREN not found while parsing fn literal")
    | (true, p1) =>
      match parseFnParams fuel p1 with
      | .error e => .error e
      | .ok (parameters, p2) =>
        match expectPeek p2 .LBRACE with
        | (false, _) => .error (.panic "Expected LBRACE not found while parsing fn literal")
        | (true, p3) =>
          match parseBlockStatement fuel p3 with
          | .error e => .error e
          | .ok (body, p4) => .ok (.FN parameters body, p4)
termination_by structural fuel

/-- Comma loop of `parse_fn_params`. -/
def parseFnParamsLoop (fuel : Nat) (p : Parser) (acc : List String) :
    Res (List String × Parser) :=
  match fuel with
  | 0 => .error .outOfFuel
  | fuel + 1 =>
    if peekTokenIs p .COMMA then
      let p1 := pNextToken (pNextToken p)
      parseFnParamsLoop fuel p1 (acc ++ [p1.cur_token.literal])
    else
      match expectPeek p .RPAREN with
      | (false, _) => .error (.panic "Expected RPAREN not found while parsing fn literal")
      | (true, p1) => .ok (acc, p1)
termination_by structural fuel

/-- `parse_fn_params`: empty list on an immediate `)`, else the first
identifier and the comma loop. -/
def parseFnParams (fuel : Nat) (p : Parser) : Res (List String × Parser) :=
  match fuel with
  | 0 => .error .outOfFuel
  | fuel + 1 =>
    if peekTokenIs p .RPAREN then .ok ([], pNextToken p)
    else
      let p1 := pNextToken p
      parseFnParamsLoop fuel p1 [p1.cur_token.literal]

end

/-- `parse_program`: run the statement loop from an empty program (the Rust
function always returns `Some(program)`). -/
def parseProgram (fuel : Nat) (p : Parser) : Res (List Statement × Parser) :=
  parseProgramLoop fuel p []

/-! Concrete programs used by the theorems below. -/

/-- The nested-return scenario of the spec and of `test_return_statements`:
`if (10 > 1) { if (10 > 1) { return 10; } return 1; }`. -/
def nestedIfProg : List Statement :=
  [.EXPRESSIONSTATEMENT (.IF (.INFIXEXP ">" (.INTEGER 10) (.INTEGER 1))
    [ .EXPRESSIONSTATEMENT (.IF (.INFIXEXP ">" (.INTEGER 10) (.INTEGER 1))
        [.RETURNSTATEMENT (.INTEGER 10)] none),
      .RETURNSTATEMENT (.INTEGER 1)] none)]

/-- A function whose body returns out of a nested block:
`let f = fn() { if (true) { return 7; } return 1; }; f()`. -/
def fnReturnProg : List Statement :=
  [ .LETSTATEMENT "f" (.FN [] [.EXPRESSIONSTATEMENT (.IF (.BOOLEAN true)
      [.RETURNSTATEMENT (.INTEGER 7)] none), .RETURNSTATEMENT (.INTEGER 1)]),
    .EXPRESSIONSTATEMENT (.CALL (.IDENTIFIER "f") []) ]

/-- A call with fewer arguments than parameters:
`let f = fn(x, y) { x }; f(1)`. -/
def shortArgsProg : List Statement :=
  [ .LETSTATEMENT "f" (.FN ["x", "y"] [.EXPRESSIONSTATEMENT (.IDENTIFIER "x")]),
    .EXPRESSIONSTATEMENT (.CALL (.IDENTIFIER "f") [.INTEGER 1]) ]

/-- Token stream of a lone `)`. -/
def loneRParenTokens : List Token :=
  [{ type := .RPAREN, literal := ")" }]

/-- Token stream of `let x = 5` reaching end of input with no semicolon. -/
def letNoSemiTokens : List Token :=
  [ { type := .LET, literal := "let" }, { type := .IDENT, literal := "x" },
    { type := .ASSIGN, literal := "=" }, { type := .INT, literal := "5" } ]

/-- Containment of one string's character list in another's, the sense in
which an error message "contains" a fragment. -/
def strContains (hay needle : String) : Prop :=
  needle.data <:+: hay.data

/-! Theorems. -/

/-- Helper: containment survives appending on the right. -/
theorem strContains_append_right {a c : String} (b : String) (h : strContains a c) :
    strContains (a ++ b) c := by
  obtain ⟨s, t, hst⟩ := h
  exact ⟨s, t ++ b.data, by rw [String.data_append, ← hst]; simp⟩

/-- Helper: containment survives appending on the left. -/
theorem strContains_append_left {b c : String} (a : String) (h : strContains b c) :
    strContains (a ++ b) c := by
  obtain ⟨s, t, hst⟩ := h
  exact ⟨a.data ++ s, t, by rw [String.data_append, ← hst]; simp⟩

/-- Helper: a string is contained in anything it prefixes. -/
theorem strContains_head (a b : String) : strContains (a ++ b) a :=
  ⟨[], b.data, by rw [String.data_append]; simp⟩

/-- C8: for every array `A` of length `n` and every evaluated index
expression `A[i]` with integer index `i`: if `0 ≤ i < n` the result is the
`i`-th element of `A`; every negative `i` and every `i ≥ n` yields `Null`. -/
theorem c8_array_index_bounds :
    (∀ (elements : List Object) (i : Int) (h1 : 0 ≤ i) (h2 : i.toNat < elements.length),
      evalIndexExpression (.ARRAY elements) (.INTEGER i) =
        .ok (elements.get ⟨i.toNat, h2⟩)) ∧
    (∀ (elements : List Object) (i : Int), i < 0 →
      evalIndexExpression (.ARRAY elements) (.INTEGER i) = .ok .NULL) ∧
    (∀ (elements : List Object) (i : Int), 0 ≤ i → elements.length ≤ i.toNat →
      evalIndexExpression (.ARRAY elements) (.INTEGER i) = .ok .NULL) := by
  refine ⟨?_, ?_, ?_⟩
  · intro elements i h1 h2
    simp [evalIndexExpression, not_lt.2 h1, h2, not_le.2 h2]
  · intro elements i h
    simp [evalIndexExpression, h]
  · intro elements i h1 h2
    simp [evalIndexExpression, not_lt.2 h1, h2]

/-- Witness for C8 at a two-element array: index 1 hits the element, index
-1 and index 2 yield `Null`. -/
theorem c8_witness :
    (0 ≤ (1 : Int) ∧ (1 : Int).toNat < [Object.INTEGER 7, Object.INTEGER 8].length ∧
      evalIndexExpression (.ARRAY [Object.INTEGER 7, Object.INTEGER 8]) (.INTEGER 1) =
        .ok (.INTEGER 8)) ∧
    ((-1 : Int) < 0 ∧
      evalIndexExpression (.ARRAY [Object.INTEGER 7, Object.INTEGER 8]) (.INTEGER (-1)) =
        .ok .NULL) ∧
    (0 ≤ (2 : Int) ∧ [Object.INTEGER 7, Object.INTEGER 8].length ≤ (2 : Int).toNat ∧
      evalIndexExpression (.ARRAY [Object.INTEGER 7, Object.INTEGER 8]) (.INTEGER 2) =
        .ok .NULL) := by
  refine ⟨⟨by decide, by decide, ?_⟩, ⟨by decide, ?_⟩, ⟨by decide, by decide, ?_⟩⟩
  · exact c8_array_index_bounds.1 [Object.INTEGER 7, Object.INTEGER 8] 1 (by decide) (by decide)
  · exact c8_array_index_bounds.2.1 [Object.INTEGER 7, Object.INTEGER 8] (-1) (by decide)
  · exact c8_array_index_bounds.2.2 [Object.INTEGER 7, Object.INTEGER 8] 2 (by decide) (by decide)

/-- C5 counterexample: indexing a hash does not perform the claimed
key lookup — on the empty hash with integer index 1 the claim predicts
`Null`, but `eval_index_expression` panics. -/
theorem c5_counterexample :
    evalIndexExpression (Object.HashLitearl []) (Object.INTEGER 1) =
      .error (.panic
        "Index operator not supported on HashLitearl(HashObject \x7b pairs: \x7b\x7d \x7d)") ∧
    ¬ ∃ v, evalIndexExpression (Object.HashLitearl []) (Object.INTEGER 1) = .ok v := by
  refine ⟨rfl, ?_⟩
  rintro ⟨v, h⟩
  rw [show evalIndexExpression (Object.HashLitearl []) (Object.INTEGER 1) =
    .error (.panic
      "Index operator not supported on HashLitearl(HashObject \x7b pairs: \x7b\x7d \x7d)")
    from rfl] at h
  exact Except.noConfusion h

/-- C5 amended: for every evaluated index expression whose container is a
Hash, whatever the index value, the evaluator panics with
`Index operator not supported on <container>`; the hash-key lookup the
claim describes is not implemented in `eval_index_expression`. -/
theorem c5_amended (pairs : List (HashKey × Object × Object)) (index : Object) :
    evalIndexExpression (.HashLitearl pairs) index =
      .error (.panic ("Index operator not supported on " ++
        objectDebug (Object.HashLitearl pairs))) := by
  rfl

/-- C6 counterexample: on two integer operands `/` does not always yield an
Integer — dividing by zero panics. -/
theorem c6_counterexample :
    evalInfixExpression "/" (Object.INTEGER 5) (Object.INTEGER 0) =
      .error (.panic "attempt to divide by zero") ∧
    ¬ ∃ v, evalInfixExpression "/" (Object.INTEGER 5) (Object.INTEGER 0) = .ok v := by
  refine ⟨rfl, ?_⟩
  rintro ⟨v, h⟩
  rw [show evalInfixExpression "/" (Object.INTEGER 5) (Object.INTEGER 0) =
    .error (.panic "attempt to divide by zero") from rfl] at h
  exact Except.noConfusion h

/-- C6 amended: on two Integer operands `+ - *` yield an Integer, and `/`
yields the truncated quotient when the divisor is nonzero and the division
does not overflow — division by zero (and `i64::MIN / -1`) panics; `< > == !=`
yield a Boolean; on two Boolean operands only `==` and `!=` are defined and
yield a Boolean, any other operator yielding an Error; on two String
operands only `+` is defined and yields the concatenation, any other
operator yielding an Error; and for every pair of operands of differing
kinds the result is an Error whose message contains `type mismatch` and the
`Debug` tag naming each operand's kind. -/
theorem c6_infix_operator_table :
    (∀ v1 v2 : Int,
      evalInfixExpression "+" (.INTEGER v1) (.INTEGER v2) = .ok (.INTEGER (v1 + v2)) ∧
      evalInfixExpression "-" (.INTEGER v1) (.INTEGER v2) = .ok (.INTEGER (v1 - v2)) ∧
      evalInfixExpression "*" (.INTEGER v1) (.INTEGER v2) = .ok (.INTEGER (v1 * v2))) ∧
    (∀ v1 v2 : Int, v2 ≠ 0 → ¬(v1 = i64Min ∧ v2 = -1) →
      evalInfixExpression "/" (.INTEGER v1) (.INTEGER v2) = .ok (.INTEGER (v1.tdiv v2))) ∧
    (∀ v1 v2 : Int,
      evalInfixExpression "<" (.INTEGER v1) (.INTEGER v2) = .ok (.BOOLEAN (decide (v1 < v2))) ∧
      evalInfixExpression ">" (.INTEGER v1) (.INTEGER v2) = .ok (.BOOLEAN (decide (v2 < v1))) ∧
      evalInfixExpression "==" (.INTEGER v1) (.INTEGER v2) = .ok (.BOOLEAN (decide (v1 = v2))) ∧
      evalInfixExpression "!=" (.INTEGER v1) (.INTEGER v2) = .ok (.BOOLEAN (decide (v1 ≠ v2)))) ∧
    (∀ b1 b2 : Bool,
      evalInfixExpression "==" (.BOOLEAN b1) (.BOOLEAN b2) = .ok (.BOOLEAN (decide (b1 = b2))) ∧
      evalInfixExpression "!=" (.BOOLEAN b1) (.BOOLEAN b2) = .ok (.BOOLEAN (decide (b1 ≠ b2)))) ∧
    (∀ (b1 b2 : Bool) (op : String), op ∉ (["==", "!="] : List String) →
      evalInfixExpression op (.BOOLEAN b1) (.BOOLEAN b2) =
        .ok (.ERROR ("unknown operator " ++ booleanStructDebug b1 ++ " " ++ op ++ " " ++
          booleanStructDebug b2))) ∧
    (∀ s1 s2 : String,
      evalInfixExpression "+" (.STRING s1) (.STRING s2) = .ok (.STRING (s1 ++ s2))) ∧
    (∀ (s1 s2 : String) (op : String), op ≠ "+" →
      evalInfixExpression op (.STRING s1) (.STRING s2) =
        .ok (.ERROR ("unknown operator " ++ stringStructDebug s1 ++ " " ++ op ++ " " ++
          stringStructDebug s2))) ∧
    (∀ (l r : Object) (op : String), objectTypeOf l ≠ objectTypeOf r →
      evalInfixExpression op l r =
        .ok (.ERROR ("type mismatch " ++ objectDebug l ++ " " ++ op ++ " " ++ objectDebug r)) ∧
      strContains ("type mismatch " ++ objectDebug l ++ " " ++ op ++ " " ++ objectDebug r)
        "type mismatch" ∧
      strContains ("type mismatch " ++ objectDebug l ++ " " ++ op ++ " " ++ objectDebug r)
        (objectKindTag l) ∧
      strContains ("type mismatch " ++ objectDebug l ++ " " ++ op ++ " " ++ objectDebug r)
        (objectKindTag r)) := by
  refine ⟨?_, ?_, ?_, ?_, ?_, ?_, ?_, ?_⟩
  · intro v1 v2; exact ⟨rfl, rfl, rfl⟩
  · intro v1 v2 h1 h2
    simp only [evalInfixExpression, if_neg h1, if_neg h2]
  · intro v1 v2; exact ⟨rfl, rfl, rfl, rfl⟩
  · intro b1 b2; exact ⟨rfl, rfl⟩
  · intro b1 b2 op h
    simp only [List.mem_cons, List.not_mem_nil, or_false, not_or] at h
    simp only [evalInfixExpression]
    split <;> simp_all
  · intro s1 s2; rfl
  · intro s1 s2 op h
    simp only [evalInfixExpression]
  · intro l r op h
    refine ⟨?_, ?_, ?_, ?_⟩
    · cases l <;> cases r <;> simp_all [evalInfixExpression, objectTypeOf]
    · exact strContains_append_right _ (strContains_append_right _
        (strContains_append_right _ (strContains_append_right _
          (strContains_append_right _
            (⟨[], [' '], by decide⟩ : strContains "type mismatch " "type mismatch")))))
    · exact strContains_append_right _ (strContains_append_right _
        (strContains_append_right _ (strContains_append_right _
          (strContains_append_left "type mismatch "
            (strContains_append_right _ (strContains_append_right _
              (strContains_head (objectKindTag l) "(")))))))
    · exact strContains_append_left _
        (strContains_append_right _ (strContains_append_right _
          (strContains_head (objectKindTag r) "(")))

/-- Witness for C6: each hypothesis-bearing conjunct applied at concrete
operands. -/
theorem c6_witness :
    ((7 : Int) ≠ 0 ∧ ¬((13 : Int) = i64Min ∧ (7 : Int) = -1) ∧
      evalInfixExpression "/" (.INTEGER 13) (.INTEGER 7) = .ok (.INTEGER 1)) ∧
    ("-" ∉ (["==", "!="] : List String) ∧
      evalInfixExpression "-" (.BOOLEAN true) (.BOOLEAN false) =
        .ok (.ERROR ("unknown operator " ++ booleanStructDebug true ++ " - " ++
          booleanStructDebug false))) ∧
    ("*" ≠ "+" ∧
      evalInfixExpression "*" (.STRING "a") (.STRING "b") =
        .ok (.ERROR ("unknown operator " ++ stringStructDebug "a" ++ " * " ++
          stringStructDebug "b"))) ∧
    (objectTypeOf (.INTEGER 5) ≠ objectTypeOf (.BOOLEAN true) ∧
      evalInfixExpression "+" (.INTEGER 5) (.BOOLEAN true) =
        .ok (.ERROR ("type mismatch " ++ objectDebug (.INTEGER 5) ++ " + " ++
          objectDebug (.BOOLEAN true)))) := by
  refine ⟨⟨by decide, by decide, ?_⟩, ⟨by decide, ?_⟩, ⟨by decide, ?_⟩, ⟨by decide, ?_⟩⟩
  · exact c6_infix_operator_table.2.1 13 7 (by decide) (by decide)
  · exact c6_infix_operator_table.2.2.2.2.1 true false "-" (by decide)
  · exact c6_infix_operator_table.2.2.2.2.2.2.1 "a" "b" "*" (by decide)
  · exact (c6_infix_operator_table.2.2.2.2.2.2.2 (.INTEGER 5) (.BOOLEAN true) "+"
      (by decide)).1

/-- Helper for C10: when the remaining parameters outnumber the remaining
arguments, the binding loop of `extend_fn_env` reaches the out-of-range
access `args[args.len()]` and panics with the Rust slice-index message. -/
theorem extendFnEnvLoop_short (args : List Object) :
    ∀ (params : List String) (i : Nat) (tbl : List (String × Object)),
      i ≤ args.length → args.length < i + params.length →
      extendFnEnvLoop args params i tbl =
        .error (.panic ("index out of bounds: the len is " ++ toString args.length ++
          " but the index is " ++ toString args.length)) := by
  intro params
  induction params with
  | nil => intro i tbl h1 h2; simp at h2; omega
  | cons p rest ih =>
    intro i tbl h1 h2
    rcases Nat.lt_or_ge i args.length with hlt | hge
    · simp only [extendFnEnvLoop, List.get?_eq_get hlt]
      exact ih (i + 1) (storeInsert tbl p (args.get ⟨i, hlt⟩)) hlt
        (by simp at h2 ⊢; omega)
    · have hi : i = args.length := Nat.le_antisymm h1 hge
      have : args.get? i = none := List.get?_eq_none.2 hge
      simp only [extendFnEnvLoop, this]
      rw [hi]

/-- C10: calling a user-defined function with fewer arguments than
parameters panics inside `extend_fn_env` (the positional `args[i]` access
is out of range); it neither yields an `Error` object nor binds the missing
parameters to `Null`.  The second conjunct runs the example
`let f = fn(x, y) { x }; f(1)` end to end: the program's result is the
panic, not an `Object`. -/
theorem c10_short_call_panics :
    (∀ (params : List String) (fnEnv : Nat) (args : List Object) (st : Store),
      args.length < params.length →
      extendFnEnv params fnEnv args st =
        .error (.panic ("index out of bounds: the len is " ++ toString args.length ++
          " but the index is " ++ toString args.length))) ∧
    resObject (evalProgram 20 shortArgsProg) =
      .error (.panic "index out of bounds: the len is 1 but the index is 1") := by
  constructor
  · intro params fnEnv args st h
    unfold extendFnEnv
    rw [extendFnEnvLoop_short args params 0 [] (Nat.zero_le _) (by omega)]
  · rfl

/-- Witness for C10: one argument against two parameters panics. -/
theorem c10_witness :
    ([Object.INTEGER 1].length < ["x", "y"].length ∧
      extendFnEnv ["x", "y"] 0 [Object.INTEGER 1] [{ store := [], outer := none }] =
        .error (.panic "index out of bounds: the len is 1 but the index is 1")) := by
  refine ⟨by decide, ?_⟩
  exact c10_short_call_panics.1 ["x", "y"] 0 [Object.INTEGER 1]
    [{ store := [], outer := none }] (by decide)

/-- Helper for C7: on a well-formed store the chain walk of `envGet` does
not depend on the fuel, provided the fuel exceeds the starting index (the
chain only ever visits smaller indices). -/
theorem envGetAux_fuel_congr {st : Store} (hwf : WFStore st) (name : String) :
    ∀ fuel1 fuel2 id, id < fuel1 → id < fuel2 →
      envGetAux fuel1 st id name = envGetAux fuel2 st id name := by
  intro fuel1
  induction fuel1 with
  | zero => intro fuel2 id h1; omega
  | succ f1 ih =>
    intro fuel2 id h1 h2
    rcases fuel2 with _ | f2
    · omega
    · simp only [envGetAux]
      rcases hget : st.get? id with _ | e
      · rfl
      · rcases hlook : storeLookup e.store name with _ | o
        · rcases hout : e.outer with _ | outerId
          · simp [hlook, hout]
          · have hlt : outerId < id := hwf id e outerId hget hout
            simp only [hlook, hout]
            exact ih f2 outerId (by omega) (by omega)
        · simp [hlook]

/-- Helper for C7: `envSet` leaves every environment other than its target
untouched. -/
theorem envSet_get?_ne (st : Store) (id i : Nat) (name : String) (obj : Object)
    (h : i ≠ id) : (envSet st id name obj).get? i = st.get? i := by
  unfold envSet
  rcases hget : st.get? id with _ | e
  · rfl
  · exact List.get?_set_ne _ st (fun e => h e.symm)

/-- Helper for C7: looking up the just-inserted name finds the new value. -/
theorem storeLookup_insert_self (tbl : List (String × Object)) (name : String) (obj : Object) :
    storeLookup (storeInsert tbl name obj) name = some obj := by
  induction tbl with
  | nil => simp [storeInsert, storeLookup]
  | cons kv rest ih =>
    obtain ⟨k, v⟩ := kv
    by_cases hk : k = name
    · simp [storeInsert, storeLookup, hk]
    · simp [storeInsert, storeLookup, hk, ih]

/-- Helper for C7: insertion does not disturb the other names. -/
theorem storeLookup_insert_ne (tbl : List (String × Object)) (name n' : String) (obj : Object)
    (h : n' ≠ name) : storeLookup (storeInsert tbl name obj) n' = storeLookup tbl n' := by
  induction tbl with
  | nil =>
    simp only [storeInsert, storeLookup]
    rw [if_neg (fun e => h e.symm)]
  | cons kv rest ih =>
    obtain ⟨k, v⟩ := kv
    simp only [storeInsert]
    by_cases hk : k = name
    · rw [if_pos hk]
      have hk' : ¬ k = n' := fun e => h (e ▸ hk)
      simp only [storeLookup]
      rw [if_neg hk', if_neg hk']
    · rw [if_neg hk]
      simp only [storeLookup]
      by_cases hk' : k = n'
      · rw [if_pos hk', if_pos hk']
      · rw [if_neg hk', if_neg hk', ih]

/-- Helper for C7: a `set` on environment `c` changes no lookup that starts
at an environment below `c` (on a well-formed store the chain from there
never reaches `c`). -/
theorem envGetAux_set_below {st : Store} (hwf : WFStore st) (c : Nat) (n : String) (o : Object)
    (name : String) :
    ∀ fuel q, q < c → envGetAux fuel (envSet st c n o) q name = envGetAux fuel st q name := by
  intro fuel
  induction fuel with
  | zero => intro q h; rfl
  | succ f ih =>
    intro q h
    simp only [envGetAux, envSet_get?_ne st c q n o (by omega)]
    rcases hget : st.get? q with _ | e
    · rfl
    · rcases hlook : storeLookup e.store name with _ | v
      · rcases hout : e.outer with _ | outerId
        · simp [hlook, hout]
        · have hlt : outerId < q := hwf q e outerId hget hout
          simp only [hlook, hout]
          exact ih outerId (by omega)
      · simp [hlook]

/-- C7: environment-chain semantics.  `get` returns the local binding when
present, else recurses into the parent, else nothing; `set` writes into the
local mapping; and no operation on a child environment — `set` on it, or
enclosing a new child — changes any binding of a parent environment (`get`
takes the store unchanged and mutates nothing by construction). -/
theorem c7_environment_semantics :
    (∀ (st : Store) (id : Nat) (name : String) (e : Environment) (o : Object),
      st.get? id = some e → storeLookup e.store name = some o →
      envGet st id name = some o) ∧
    (∀ (st : Store) (id : Nat) (name : String) (e : Environment) (p : Nat),
      WFStore st → st.get? id = some e → storeLookup e.store name = none →
      e.outer = some p → envGet st id name = envGet st p name) ∧
    (∀ (st : Store) (id : Nat) (name : String) (e : Environment),
      st.get? id = some e → storeLookup e.store name = none → e.outer = none →
      envGet st id name = none) ∧
    (∀ (st : Store) (id : Nat) (name : String) (obj : Object) (e : Environment),
      st.get? id = some e → envGet (envSet st id name obj) id name = some obj) ∧
    (∀ (st : Store) (id i : Nat) (name : String) (obj : Object), i ≠ id →
      (envSet st id name obj).get? i = st.get? i) ∧
    (∀ (st : Store) (outerId i : Nat), i < st.length →
      ((enclosedEnvironment outerId st).2).get? i = st.get? i) ∧
    (∀ (st : Store) (c p : Nat) (n name : String) (o : Object),
      WFStore st → p < c → envGet (envSet st c n o) p name = envGet st p name) := by
  refine ⟨?_, ?_, ?_, ?_, ?_, ?_, ?_⟩
  · intro st id name e o h1 h2
    simp only [envGet, envGetAux]
    rw [h1]
    simp [h2]
  · intro st id name e p hwf h1 h2 h3
    have hp : p < id := hwf id e p h1 h3
    show envGetAux (id + 1) st id name = envGetAux (p + 1) st p name
    simp only [envGetAux, h1, h2, h3]
    exact envGetAux_fuel_congr hwf name id (p + 1) p hp (by omega)
  · intro st id name e h1 h2 h3
    simp only [envGet, envGetAux]
    rw [h1]
    simp [h2, h3]
  · intro st id name obj e h
    have hlt : id < st.length := by
      rcases List.get?_eq_some.mp h with ⟨hlt, _⟩; exact hlt
    have hset : (envSet st id name obj).get? id =
        some { e with store := storeInsert e.store name obj } := by
      unfold envSet
      rw [h]
      exact List.get?_set_eq_of_lt _ hlt
    simp only [envGet, envGetAux]
    rw [hset]
    simp [storeLookup_insert_self]
  · intro st id i name obj h
    exact envSet_get?_ne st id i name obj h
  · intro st outerId i h
    show (st ++ [({ store := [], outer := some outerId } : Environment)]).get? i = st.get? i
    exact List.get?_append h
  · intro st c p n name o hwf h
    exact envGetAux_set_below hwf c n o name (p + 1) p h

/-- Witness for C7 on a concrete two-environment chain: environment 1 is a
child of environment 0, which binds `a`. -/
theorem c7_witness :
    WFStore [({ store := [("a", Object.INTEGER 1)], outer := none } : Environment),
      ({ store := [], outer := some 0 } : Environment)] ∧
    envGet [({ store := [("a", Object.INTEGER 1)], outer := none } : Environment),
      ({ store := [], outer := some 0 } : Environment)] 0 "a" = some (Object.INTEGER 1) ∧
    envGet [({ store := [("a", Object.INTEGER 1)], outer := none } : Environment),
      ({ store := [], outer := some 0 } : Environment)] 1 "a" =
      envGet [({ store := [("a", Object.INTEGER 1)], outer := none } : Environment),
        ({ store := [], outer := some 0 } : Environment)] 0 "a" ∧
    envGet [({ store := [("a", Object.INTEGER 1)], outer := none } : Environment),
      ({ store := [], outer := some 0 } : Environment)] 0 "zz" = none ∧
    envGet (envSet [({ store := [("a", Object.INTEGER 1)], outer := none } : Environment),
      ({ store := [], outer := some 0 } : Environment)] 1 "b" (Object.INTEGER 2)) 1 "b" =
      some (Object.INTEGER 2) ∧
    (envSet [({ store := [("a", Object.INTEGER 1)], outer := none } : Environment),
      ({ store := [], outer := some 0 } : Environment)] 1 "b" (Object.INTEGER 2)).get? 0 =
      ([({ store := [("a", Object.INTEGER 1)], outer := none } : Environment),
        ({ store := [], outer := some 0 } : Environment)] : Store).get? 0 ∧
    ((enclosedEnvironment 1 [({ store := [("a", Object.INTEGER 1)], outer := none } : Environment),
      ({ store := [], outer := some 0 } : Environment)]).2).get? 0 =
      ([({ store := [("a", Object.INTEGER 1)], outer := none } : Environment),
        ({ store := [], outer := some 0 } : Environment)] : Store).get? 0 ∧
    envGet (envSet [({ store := [("a", Object.INTEGER 1)], outer := none } : Environment),
      ({ store := [], outer := some 0 } : Environment)] 1 "b" (Object.INTEGER 2)) 0 "a" =
      envGet [({ store := [("a", Object.INTEGER 1)], outer := none } : Environment),
        ({ store := [], outer := some 0 } : Environment)] 0 "a" := by
  have hwf : WFStore [({ store := [("a", Object.INTEGER 1)], outer := none } : Environment),
      ({ store := [], outer := some 0 } : Environment)] := by
    intro i e p h1 h2
    rcases i with _ | _ | i
    · cases h1; simp at h2
    · cases h1; injection h2 with h2; omega
    · simp [List.get?] at h1
  refine ⟨hwf, ?_, ?_, ?_, ?_, ?_, ?_, ?_⟩
  · exact c7_environment_semantics.1 _ 0 "a" _ _ rfl rfl
  · exact c7_environment_semantics.2.1 _ 1 "a" _ 0 hwf rfl rfl rfl
  · exact c7_environment_semantics.2.2.1 _ 0 "zz" _ rfl rfl rfl
  · exact c7_environment_semantics.2.2.2.1 _ 1 "b" (Object.INTEGER 2) _ rfl
  · exact c7_environment_semantics.2.2.2.2.1 _ 1 0 "b" (Object.INTEGER 2) (by decide)
  · exact c7_environment_semantics.2.2.2.2.2.1 _ 1 0 (by decide)
  · exact c7_environment_semantics.2.2.2.2.2.2 _ 1 0 "b" "a" (Object.INTEGER 2) hwf
      (by decide)

/-- C2: once a sub-evaluation yields an `Error` object, no later
sub-evaluation of the same construct runs and that error is the overall
result, unchanged.  Each conjunct quantifies over the *remaining* work
(`rest` statements, the right operand, remaining arguments, …) and shows
the result does not depend on it: the error from the already-evaluated part
is returned as is, with the store exactly as the erroring step left it.
Covered positions: program statement sequences, block statement sequences,
expression lists (call arguments and array items), an array literal whose
item list errored, prefix operand, infix left and right operands, if
conditions, call callees, erroring call argument lists, index left and
right operands, and hash keys and values. -/
theorem c2_error_short_circuit :
    (∀ (fuel : Nat) (s : Statement) (rest : List Statement) (env : Nat) (st st' : Store)
        (m : String) (result : Object),
      evalStatement fuel s env st = .ok (some (.ERROR m), st') →
      evalStatementsLoop (fuel + 1) (s :: rest) env st result = .ok (.ERROR m, st')) ∧
    (∀ (fuel : Nat) (s : Statement) (rest : List Statement) (env : Nat) (st st' : Store)
        (m : String) (result : Object),
      evalStatement fuel s env st = .ok (some (.ERROR m), st') →
      evalBlockStatementsLoop (fuel + 1) (s :: rest) env st result = .ok (.ERROR m, st')) ∧
    (∀ (fuel : Nat) (e : EXPRESSION) (rest : List EXPRESSION) (env : Nat) (st st' : Store)
        (m : String) (acc : List Object),
      evalExpression fuel e env st = .ok (.ERROR m, st') →
      evalExpressionsLoop (fuel + 1) (e :: rest) env st acc = .ok ([.ERROR m], st')) ∧
    (∀ (fuel : Nat) (items : List EXPRESSION) (env : Nat) (st st' : Store) (m : String),
      evalExpressionsLoop fuel items env st [] = .ok ([.ERROR m], st') →
      evalExpression (fuel + 1) (.ArrayLit items) env st = .ok (.ERROR m, st')) ∧
    (∀ (fuel : Nat) (op : String) (r : EXPRESSION) (env : Nat) (st st' : Store) (m : String),
      evalExpression fuel r env st = .ok (.ERROR m, st') →
      evalExpression (fuel + 1) (.PREFIXEXP op r) env st = .ok (.ERROR m, st')) ∧
    (∀ (fuel : Nat) (op : String) (l r : EXPRESSION) (env : Nat) (st st' : Store) (m : String),
      evalExpression fuel l env st = .ok (.ERROR m, st') →
      evalExpression (fuel + 1) (.INFIXEXP op l r) env st = .ok (.ERROR m, st')) ∧
    (∀ (fuel : Nat) (op : String) (l r : EXPRESSION) (env : Nat) (st st1 st2 : Store)
        (lv : Object) (m : String),
      evalExpression fuel l env st = .ok (lv, st1) → isError lv = false →
      evalExpression fuel r env st1 = .ok (.ERROR m, st2) →
      evalExpression (fuel + 1) (.INFIXEXP op l r) env st = .ok (.ERROR m, st2)) ∧
    (∀ (fuel : Nat) (cond : EXPRESSION) (cons : List Statement)
        (alt : Option (List Statement)) (env : Nat) (st st' : Store) (m : String),
      evalExpression fuel cond env st = .ok (.ERROR m, st') →
      evalIfExpression (fuel + 1) cond cons alt env st = .ok (.ERROR m, st')) ∧
    (∀ (fuel : Nat) (f : EXPRESSION) (args : List EXPRESSION) (env : Nat) (st st' : Store)
        (m : String),
      evalExpression fuel f env st = .ok (.ERROR m, st') →
      evalCallExpression (fuel + 1) f args env st = .ok (.ERROR m, st')) ∧
    (∀ (fuel : Nat) (f : EXPRESSION) (args : List EXPRESSION) (env : Nat)
        (st st1 st2 : Store) (fv : Object) (m : String),
      evalExpression fuel f env st = .ok (fv, st1) → isError fv = false →
      evalExpressionsLoop fuel args env st1 [] = .ok ([.ERROR m], st2) →
      evalCallExpression (fuel + 1) f args env st = .ok (.ERROR m, st2)) ∧
    (∀ (fuel : Nat) (l ix : EXPRESSION) (env : Nat) (st st' : Store) (m : String),
      evalExpression fuel l env st = .ok (.ERROR m, st') →
      evalExpression (fuel + 1) (.IndexExp l ix) env st = .ok (.ERROR m, st')) ∧
    (∀ (fuel : Nat) (l ix : EXPRESSION) (env : Nat) (st st1 st2 : Store) (lv : Object)
        (m : String),
      evalExpression fuel l env st = .ok (lv, st1) → isError lv = false →
      evalExpression fuel ix env st1 = .ok (.ERROR m, st2) →
      evalExpression (fuel + 1) (.IndexExp l ix) env st = .ok (.ERROR m, st2)) ∧
    (∀ (fuel : Nat) (k v : EXPRESSION) (rest : List (EXPRESSION × EXPRESSION)) (env : Nat)
        (st st' : Store) (m : String) (acc : List (HashKey × Object × Object)),
      evalExpression fuel k env st = .ok (.ERROR m, st') →
      evalHashLiteralLoop (fuel + 1) ((k, v) :: rest) env st acc = .ok (.ERROR m, st')) ∧
    (∀ (fuel : Nat) (k v : EXPRESSION) (rest : List (EXPRESSION × EXPRESSION)) (env : Nat)
        (st st1 st2 : Store) (kv : Object) (hk : HashKey) (m : String)
        (acc : List (HashKey × Object × Object)),
      evalExpression fuel k env st = .ok (kv, st1) → isError kv = false →
      hashKeyOf kv = some hk →
      evalExpression fuel v env st1 = .ok (.ERROR m, st2) →
      evalHashLiteralLoop (fuel + 1) ((k, v) :: rest) env st acc = .ok (.ERROR m, st2)) := by
  refine ⟨?_, ?_, ?_, ?_, ?_, ?_, ?_, ?_, ?_, ?_, ?_, ?_, ?_, ?_⟩
  · intro fuel s rest env st st' m result h
    simp [evalStatementsLoop, h]
  · intro fuel s rest env st st' m result h
    simp [evalBlockStatementsLoop, h]
  · intro fuel e rest env st st' m acc h
    simp [evalExpressionsLoop, h, isError]
  · intro fuel items env st st' m h
    simp [evalExpression, h, singletonError, isError]
  · intro fuel op r env st st' m h
    simp [evalExpression, h, isError]
  · intro fuel op l r env st st' m h
    simp [evalExpression, h, isError]
  · intro fuel op l r env st st1 st2 lv m h1 h2 h3
    have hE : isError (Object.ERROR m) = true := rfl
    simp [evalExpression, h1, h2, h3, hE]
  · intro fuel cond cons alt env st st' m h
    simp [evalIfExpression, h, isError]
  · intro fuel f args env st st' m h
    simp [evalCallExpression, h, isError]
  · intro fuel f args env st st1 st2 fv m h1 h2 h3
    have hE : isError (Object.ERROR m) = true := rfl
    simp [evalCallExpression, h1, h2, h3, singletonError, hE]
  · intro fuel l ix env st st' m h
    simp [evalExpression, h, isError]
  · intro fuel l ix env st st1 st2 lv m h1 h2 h3
    have hE : isError (Object.ERROR m) = true := rfl
    simp [evalExpression, h1, h2, h3, hE]
  · intro fuel k v rest env st st' m acc h
    simp [evalHashLiteralLoop, h, isError]
  · intro fuel k v rest env st st1 st2 kv hk m acc h1 h2 h3 h4
    have hE : isError (Object.ERROR m) = true := rfl
    simp [evalHashLiteralLoop, h1, h2, h3, h4, hE]

/-- Witness for C2: every conjunct applied in the one-environment store,
with the failing sub-expression `nope` (an unbound identifier, which
evaluates to an `Error` object) and the succeeding neighbours `9` and `1`
that are never reached. -/
theorem c2_witness :
    (evalStatement 3 (.EXPRESSIONSTATEMENT (.IDENTIFIER "nope")) 0
        [({ store := [], outer := none } : Environment)] =
      .ok (some (.ERROR "identifier not found: nope"),
        [({ store := [], outer := none } : Environment)]) ∧
      evalStatementsLoop 4
          [.EXPRESSIONSTATEMENT (.IDENTIFIER "nope"), .EXPRESSIONSTATEMENT (.INTEGER 9)] 0
          [({ store := [], outer := none } : Environment)] .NULL =
        .ok (.ERROR "identifier not found: nope",
          [({ store := [], outer := none } : Environment)])) ∧
    evalBlockStatementsLoop 4
        [.EXPRESSIONSTATEMENT (.IDENTIFIER "nope"), .EXPRESSIONSTATEMENT (.INTEGER 9)] 0
        [({ store := [], outer := none } : Environment)] .NULL =
      .ok (.ERROR "identifier not found: nope",
        [({ store := [], outer := none } : Environment)]) ∧
    evalExpressionsLoop 3 [.IDENTIFIER "nope", .INTEGER 1] 0
        [({ store := [], outer := none } : Environment)] [] =
      .ok ([.ERROR "identifier not found: nope"],
        [({ store := [], outer := none } : Environment)]) ∧
    evalExpression 4 (.ArrayLit [.IDENTIFIER "nope"]) 0
        [({ store := [], outer := none } : Environment)] =
      .ok (.ERROR "identifier not found: nope",
        [({ store := [], outer := none } : Environment)]) ∧
    evalExpression 3 (.PREFIXEXP "!" (.IDENTIFIER "nope")) 0
        [({ store := [], outer := none } : Environment)] =
      .ok (.ERROR "identifier not found: nope",
        [({ store := [], outer := none } : Environment)]) ∧
    evalExpression 3 (.INFIXEXP "+" (.IDENTIFIER "nope") (.INTEGER 1)) 0
        [({ store := [], outer := none } : Environment)] =
      .ok (.ERROR "identifier not found: nope",
        [({ store := [], outer := none } : Environment)]) ∧
    evalExpression 3 (.INFIXEXP "+" (.INTEGER 1) (.IDENTIFIER "nope")) 0
        [({ store := [], outer := none } : Environment)] =
      .ok (.ERROR "identifier not found: nope",
        [({ store := [], outer := none } : Environment)]) ∧
    evalIfExpression 3 (.IDENTIFIER "nope") [] none 0
        [({ store := [], outer := none } : Environment)] =
      .ok (.ERROR "identifier not found: nope",
        [({ store := [], outer := none } : Environment)]) ∧
    evalCallExpression 3 (.IDENTIFIER "nope") [] 0
        [({ store := [], outer := none } : Environment)] =
      .ok (.ERROR "identifier not found: nope",
        [({ store := [], outer := none } : Environment)]) ∧
    evalCallExpression 3 (.INTEGER 1) [.IDENTIFIER "nope"] 0
        [({ store := [], outer := none } : Environment)] =
      .ok (.ERROR "identifier not found: nope",
        [({ store := [], outer := none } : Environment)]) ∧
    evalExpression 3 (.IndexExp (.IDENTIFIER "nope") (.INTEGER 1)) 0
        [({ store := [], outer := none } : Environment)] =
      .ok (.ERROR "identifier not found: nope",
        [({ store := [], outer := none } : Environment)]) ∧
    evalExpression 3 (.IndexExp (.INTEGER 1) (.IDENTIFIER "nope")) 0
        [({ store := [], outer := none } : Environment)] =
      .ok (.ERROR "identifier not found: nope",
        [({ store := [], outer := none } : Environment)]) ∧
    evalHashLiteralLoop 3 [(.IDENTIFIER "nope", .INTEGER 1)] 0
        [({ store := [], outer := none } : Environment)] [] =
      .ok (.ERROR "identifier not found: nope",
        [({ store := [], outer := none } : Environment)]) ∧
    evalHashLiteralLoop 3 [(.INTEGER 1, .IDENTIFIER "nope")] 0
        [({ store := [], outer := none } : Environment)] [] =
      .ok (.ERROR "identifier not found: nope",
        [({ store := [], outer := none } : Environment)]) := by
  refine ⟨⟨rfl, ?_⟩, ?_, ?_, ?_, ?_, ?_, ?_, ?_, ?_, ?_, ?_, ?_, ?_, ?_⟩
  · exact c2_error_short_circuit.1 3 _ _ 0 _ _ _ .NULL rfl
  · exact c2_error_short_circuit.2.1 3 _ _ 0 _ _ _ .NULL rfl
  · exact c2_error_short_circuit.2.2.1 2 _ _ 0 _ _ _ [] rfl
  · exact c2_error_short_circuit.2.2.2.1 3 _ 0 _ _ _ rfl
  · exact c2_error_short_circuit.2.2.2.2.1 2 "!" _ 0 _ _ _ rfl
  · exact c2_error_short_circuit.2.2.2.2.2.1 2 "+" _ _ 0 _ _ _ rfl
  · exact c2_error_short_circuit.2.2.2.2.2.2.1 2 "+" _ _ 0 _ _ _ (.INTEGER 1) _ rfl rfl rfl
  · exact c2_error_short_circuit.2.2.2.2.2.2.2.1 2 _ [] none 0 _ _ _ rfl
  · exact c2_error_short_circuit.2.2.2.2.2.2.2.2.1 2 _ [] 0 _ _ _ rfl
  · exact c2_error_short_circuit.2.2.2.2.2.2.2.2.2.1 2 _ _ 0 _ _ _ (.INTEGER 1) _ rfl rfl rfl
  · exact c2_error_short_circuit.2.2.2.2.2.2.2.2.2.2.1 2 _ _ 0 _ _ _ rfl
  · exact c2_error_short_circuit.2.2.2.2.2.2.2.2.2.2.2.1 2 _ _ 0 _ _ _ (.INTEGER 1) _ rfl
      rfl rfl
  · exact c2_error_short_circuit.2.2.2.2.2.2.2.2.2.2.2.2.1 2 _ _ [] 0 _ _ _ [] rfl
  · exact c2_error_short_circuit.2.2.2.2.2.2.2.2.2.2.2.2.2 2 _ _ [] 0 _ _ _
      (.INTEGER 1) (integerHashKey 1) _ [] rfl rfl rfl rfl

/-- C1: a `Return` produced by a statement of a block is the block's result
still wrapped (first conjunct), while a statement sequence evaluated as a
program unwraps it (second conjunct), and the function-call boundary
unwraps the `Return` its body block produced (third conjunct).  The two
closed conjuncts run a `return` inside nested if-blocks to the top level
(yielding `10`, never the wrapper) and through a function call (yielding
`7`). -/
theorem c1_return_propagation :
    (∀ (fuel : Nat) (s : Statement) (rest : List Statement) (env : Nat) (st st' : Store)
        (v result : Object),
      evalStatement fuel s env st = .ok (some (.RETURN v), st') →
      evalBlockStatementsLoop (fuel + 1) (s :: rest) env st result = .ok (.RETURN v, st')) ∧
    (∀ (fuel : Nat) (s : Statement) (rest : List Statement) (env : Nat) (st st' : Store)
        (v result : Object),
      evalStatement fuel s env st = .ok (some (.RETURN v), st') →
      evalStatementsLoop (fuel + 1) (s :: rest) env st result = .ok (v, st')) ∧
    (∀ (fuel : Nat) (fexp : EXPRESSION) (argExps : List EXPRESSION) (env : Nat)
        (st st1 st2 st3 st4 : Store) (params : List String) (body : List Statement)
        (fenv newEnv : Nat) (argVals : List Object) (v : Object),
      evalExpression fuel fexp env st = .ok (.FN params body fenv, st1) →
      evalExpressionsLoop fuel argExps env st1 [] = .ok (argVals, st2) →
      singletonError argVals = none →
      extendFnEnv params fenv argVals st2 = .ok (newEnv, st3) →
      evalBlockStatementsLoop fuel body newEnv st3 .NULL = .ok (.RETURN v, st4) →
      evalCallExpression (fuel + 1) fexp argExps env st = .ok (v, st4)) ∧
    resObject (evalProgram 20 nestedIfProg) = .ok (.INTEGER 10) ∧
    resObject (evalProgram 20 fnReturnProg) = .ok (.INTEGER 7) := by
  refine ⟨?_, ?_, ?_, rfl, rfl⟩
  · intro fuel s rest env st st' v result h
    simp [evalBlockStatementsLoop, h]
  · intro fuel s rest env st st' v result h
    simp [evalStatementsLoop, h]
  · intro fuel fexp argExps env st st1 st2 st3 st4 params body fenv newEnv argVals v
      h1 h2 h3 h4 h5
    have hF : isError (Object.FN params body fenv) = false := rfl
    simp [evalCallExpression, h1, h2, h3, h4, h5, hF]

/-- Witness for C1: a `return 5;` statement keeps its wrapper inside a block
loop, is unwrapped by the program loop, and a call of `fn() { return 5; }`
yields the bare `5`. -/
theorem c1_witness :
    (evalStatement 3 (.RETURNSTATEMENT (.INTEGER 5)) 0
        [({ store := [], outer := none } : Environment)] =
      .ok (some (.RETURN (.INTEGER 5)), [({ store := [], outer := none } : Environment)]) ∧
      evalBlockStatementsLoop 4
          [.RETURNSTATEMENT (.INTEGER 5), .EXPRESSIONSTATEMENT (.INTEGER 9)] 0
          [({ store := [], outer := none } : Environment)] .NULL =
        .ok (.RETURN (.INTEGER 5), [({ store := [], outer := none } : Environment)])) ∧
    evalStatementsLoop 4 [.RETURNSTATEMENT (.INTEGER 5), .EXPRESSIONSTATEMENT (.INTEGER 9)] 0
        [({ store := [], outer := none } : Environment)] .NULL =
      .ok (.INTEGER 5, [({ store := [], outer := none } : Environment)]) ∧
    evalCallExpression 5 (.FN [] [.RETURNSTATEMENT (.INTEGER 5)]) [] 0
        [({ store := [], outer := none } : Environment)] =
      .ok (.INTEGER 5,
        [({ store := [], outer := none } : Environment),
         ({ store := [], outer := some 0 } : Environment)]) := by
  refine ⟨⟨rfl, ?_⟩, ?_, ?_⟩
  · exact c1_return_propagation.1 3 _ _ 0 _ _ _ .NULL rfl
  · exact c1_return_propagation.2.1 3 _ _ 0 _ _ _ .NULL rfl
  · exact c1_return_propagation.2.2.1 4 _ [] 0 _ _ _ _ _ [] _ 0 1 [] _ rfl rfl rfl rfl rfl

/-- Helper for C4: on the unterminated-string input `"ab` (bytes
`[34, 97, 98]`), once the reading position has passed the opening quote the
`read_string` loop never stops — every byte it meets is `97`, `98` or the
end-of-input `0`, and none of them equals `b'"'` (34) or `b'0'` (48). -/
theorem readStringLoop_unterminated :
    ∀ (fuel : Nat) (l : Lexer), l.input = [34, 97, 98] → 1 ≤ l.read_position →
      readStringLoop fuel l = none := by
  intro fuel
  induction fuel with
  | zero => intro l h1 h2; rfl
  | succ f ih =>
    intro l h1 h2
    have hch : (readChar l).ch = 97 ∨ (readChar l).ch = 98 ∨ (readChar l).ch = 0 := by
      simp only [readChar, h1]
      rcases Nat.lt_or_ge l.read_position 3 with h | h
      · have : l.read_position = 1 ∨ l.read_position = 2 := by omega
        rcases this with h' | h' <;> simp [h']
      · simp [h]
    have hcond : ¬((readChar l).ch = 34 ∨ (readChar l).ch = 48) := by
      rcases hch with h | h | h <;> simp [h]
    simp only [readStringLoop, if_neg hcond]
    exact ih (readChar l) (by simp [readChar, h1]) (by simp [readChar])

/-- C4: the wasm lexer's `next_token` does not terminate on every input —
on the unterminated string `"ab` it never returns, at any fuel, because the
`read_string` loop compares against the byte `b'0'` instead of the
end-of-input sentinel `0` and runs past the end of input forever. -/
theorem c4_unterminated_string_diverges (fuel : Nat) :
    nextToken fuel (lexerNew [34, 97, 98]) = none := by
  rcases fuel with _ | f
  · rfl
  · have hsw : skipWhitespace (f + 1) (lexerNew [34, 97, 98]) =
        some (lexerNew [34, 97, 98]) := by
      simp [skipWhitespace, lexerNew, readChar]
    have hrs : readString (f + 1) (lexerNew [34, 97, 98]) = none := by
      simp only [readString]
      rw [readStringLoop_unterminated (f + 1) _ rfl (by decide)]
    have hL : lexerNew [34, 97, 98] =
        { input := [34, 97, 98], position := 0, read_position := 1, ch := 34 } := rfl
    rw [hL] at hsw hrs
    rw [show nextToken (f + 1) (lexerNew [34, 97, 98]) =
      nextToken (f + 1) { input := [34, 97, 98], position := 0, read_position := 1, ch := 34 }
      from rfl]
    simp [nextToken, hsw, hrs]

/-- C9: lexing the five-byte input `"a0b"` produces a `STRING` token whose
literal is only `a` — the digit `0` (byte 48) ends the string early, so the
literal is not the raw slice `a0b` between the two quotes. -/
theorem c9_digit_zero_ends_string :
    (nextToken 32 (lexerNew (strBytes "\"a0b\""))).map (fun r => r.1) =
      some { type := TokenType.STRING, literal := strBytes "a" } ∧
    strBytes "a" ≠ strBytes "a0b" := by
  exact ⟨rfl, by decide⟩

/-- Helper for C3: the `while !cur_token_is(SEMICOLON) { next_token() }`
loop of `parse_let_statement` (and `parse_return_statement`) never
terminates when no semicolon remains anywhere in the stream — after the
stream is exhausted the parser keeps reading `EOF`, which is never a
semicolon. -/
theorem skipToSemicolonLoop_diverges :
    ∀ (fuel : Nat) (p : Parser),
      p.cur_token.type ≠ .SEMICOLON → p.peek_token.type ≠ .SEMICOLON →
      (∀ t ∈ p.tokens, t.type ≠ .SEMICOLON) →
      skipToSemicolonLoop fuel p = .error .outOfFuel := by
  intro fuel
  induction fuel with
  | zero => intro p h1 h2 h3; rfl
  | succ f ih =>
    intro p h1 h2 h3
    have hc : curTokenIs p .SEMICOLON = false := by
      simp [curTokenIs, h1]
    simp only [skipToSemicolonLoop, hc, Bool.false_eq_true, if_false]
    apply ih
    · simpa [pNextToken] using h2
    · simp only [pNextToken]
      cases htok : p.tokens with
      | nil => simp [eofToken]
      | cons t ts => simpa using h3 t (by simp [htok])
    · intro t ht
      simp only [pNextToken] at ht
      exact h3 t (List.mem_of_mem_tail ht)

/-- C3 counterexample: on the token stream of a lone `)` the parser does
not return a (partial) program — `parse_expression` panics with
`no prefix parse fn for RPAREN defined`. -/
theorem c3_counterexample :
    parseProgram 9 (parserNew loneRParenTokens) =
      .error (.panic "no prefix parse fn for RPAREN defined") ∧
    ¬ ∃ r, parseProgram 9 (parserNew loneRParenTokens) = .ok r := by
  refine ⟨rfl, ?_⟩
  rintro ⟨r, h⟩
  rw [show parseProgram 9 (parserNew loneRParenTokens) =
    .error (.panic "no prefix parse fn for RPAREN defined") from rfl] at h
  exact Except.noConfusion h

/-- C3 amended: the parser records `expect_peek` diagnostics in its error
list (third conjunct), but it is not total: an expression whose first token
has no prefix parselet panics (first conjunct, the lone `)` stream), and a
`let` statement that reaches end of input without a semicolon never
terminates — at every fuel the skip-to-semicolon loop is still running
(second conjunct). -/
theorem c3_amended :
    parseProgram 9 (parserNew loneRParenTokens) =
      .error (.panic "no prefix parse fn for RPAREN defined") ∧
    (∀ fuel : Nat, parseProgram fuel (parserNew letNoSemiTokens) = .error .outOfFuel) ∧
    (∀ (p : Parser) (t : TokenType), p.peek_token.type ≠ t →
      expectPeek p t = (false, { p with errors := p.errors ++
        ["Expected next token to be " ++ tokenTypeDebug t ++ ", got " ++
          tokenTypeDebug p.peek_token.type] })) := by
  refine ⟨rfl, ?_, ?_⟩
  · intro fuel
    rcases fuel with _ | _ | _ | f
    · rfl
    · rfl
    · rfl
    · have hdiv : skipToSemicolonLoop f
          ({ tokens := [], cur_token := { type := .ASSIGN, literal := "=" },
             peek_token := { type := .INT, literal := "5" }, errors := [] } : Parser) =
          .error .outOfFuel := by
        apply skipToSemicolonLoop_diverges
        · intro h; cases h
        · intro h; cases h
        · intro t ht; simp at ht
      show parseProgramLoop (f + 3) (parserNew letNoSemiTokens) [] = .error .outOfFuel
      simp only [parserNew, letNoSemiTokens, pNextToken, eofToken, parseProgramLoop,
        parseStatement, parseLetStatement, expectPeek, peekTokenIs, peekErrors,
        curTokenIs]
      simp only [List.headD, List.tail]
      simp [hdiv]
  · intro p t h
    simp [expectPeek, peekTokenIs, peekErrors, h]

/-- Witness for C3: the `expect_peek` conjunct applied where the peek token
is `INT` but `IDENT` was expected, and the divergence conjunct applied at
fuel 5. -/
theorem c3_witness :
    ((⟨[], eofToken, ⟨TokenType.INT, "5"⟩, []⟩ : Parser).peek_token.type ≠
        TokenType.IDENT ∧
      expectPeek (⟨[], eofToken, ⟨TokenType.INT, "5"⟩, []⟩ : Parser) TokenType.IDENT =
        (false, (⟨[], eofToken, ⟨TokenType.INT, "5"⟩,
          ["Expected next token to be IDENT, got INT"]⟩ : Parser))) ∧
    parseProgram 5 (parserNew letNoSemiTokens) = .error .outOfFuel := by
  refine ⟨⟨by decide, ?_⟩, ?_⟩
  · exact c3_amended.2.2 _ TokenType.IDENT (by decide)
  · exact c3_amended.2.1 5

end Monkey
